import Mathlib

/-!
# FTP uploader (`ftp.cpp`): a shallow embedding and its verified properties

The C++ translation unit keeps its state in file-level statics (`rspBuf`,
`respCodeRx`, `sdPathName`, `uploadInProgress`) and two `WiFiClient` objects.
Here that state is one record, `World`, threaded explicitly through every
function.  The collaborators the file only calls (the transport, the storage
card, the content hook) are scripted inside the record: each call consumes the
next scripted answer, so a theorem quantified over all worlds covers every
behaviour of the server, the network and the card.

Bytes are natural numbers, C strings are byte lists read up to the first NUL.
A function returns `none` where the C++ has undefined behaviour: a null pointer
handed to `sscanf` or advanced and searched by `strchr`, a `strcpy` beyond a
`FILE_NAME_LEN` buffer, a division by a file size of zero, a number read by
`sscanf` that does not fit its `int`, a shift of a negative `int` or past its
range. `FILE_NAME_LEN` and
`FILE_EXT` come from `myConfig.h` and are parameters here, as are the helpers
`isAVI`, `changeExtension` and `readClientBuf` of the other units. Serial log
output is left out, except the progress percentage, whose computation can fail.
-/

set_option maxRecDepth 100000

namespace Ftp

/-! ## C strings and buffers -/

/-- Bytes of a string literal. -/
def str (s : String) : List Nat := s.toList.map Char.toNat

/-- Content of the C string stored at the start of `buf`: the bytes before the first NUL. -/
def cstr : List Nat → List Nat
  | [] => []
  | c :: t => if c = 0 then [] else c :: cstr t

/-- Value of `strlen`. -/
def strlen (s : List Nat) : Nat := (cstr s).length

/-- Lexicographic comparison of two NUL-free byte lists, as `strcmp` orders them. -/
def lexCmp : List Nat → List Nat → Int
  | [], [] => 0
  | [], _ :: _ => -1
  | _ :: _, [] => 1
  | a :: s, b :: t => if a < b then -1 else if b < a then 1 else lexCmp s t

/-- Value of `strcmp`: zero exactly when both C strings have the same content. -/
def strcmp (a b : List Nat) : Int := lexCmp (cstr a) (cstr b)

/-- Value of `strchr(s, c)` for a non-NUL `c`: offset of the first `c` before the terminator. -/
def strchr : List Nat → Nat → Option Nat
  | [], _ => none
  | x :: t, c => if x = c then some 0 else if x = 0 then none else (strchr t c).map (· + 1)

/-- Does `strstr(hay, needle)` find the needle (is the result non-null). -/
def strstrFound : List Nat → List Nat → Bool
  | [], needle => needle.isEmpty
  | c :: t, needle => needle.isPrefixOf (c :: t) || strstrFound t needle

/-- Bytes copied into a buffer from its start; the bytes beyond the copy keep their old value. -/
def writeBuf (buf data : List Nat) : List Nat := data ++ buf.drop data.length

/-- Store of one byte, `buf[i] = v`. -/
def poke (buf : List Nat) (i v : Nat) : List Nat := buf.take i ++ v :: buf.drop (i + 1)

/-! ## State -/

/-- Calls recorded for inspection: which folder or file a helper was invoked on. -/
inductive Call where
  | createFtpFolder (folderName : List Nat)
  | ftpStoreFile (name : List Nat)
  deriving DecidableEq, Repr

/-- Configuration: the server parameters and what `myConfig.h` and the other units provide. -/
structure Config where
  ftp_server : List Nat
  ftp_port : List Nat
  ftp_user : List Nat
  ftp_pass : List Nat
  ftp_wd : List Nat
  FILE_EXT : List Nat
  FILE_NAME_LEN : Nat
  changeExtension : List Nat → List Nat

/-- One entry of the storage card as the `File` handle exposes it. `reads` lists what the
successive `readClientBuf` calls deliver; once the list is used up the hook returns zero. -/
structure Entry where
  name : List Nat
  path : List Nat
  isDirectory : Bool
  size : Nat
  isAVI : Bool
  reads : List (List Nat)
  deriving DecidableEq, Repr

/-- Result of `SD_MMC.open`: the entry and, for a directory, what `openNextFile` yields in turn. -/
structure Root where
  entry : Entry
  children : List Entry
  deriving DecidableEq, Repr

/-- The statics of the unit, the two clients, the scripted collaborators and what was emitted.

* `respCodeRx`, `rspBuf`, `sdPathName`, `uploadInProgress`: the statics of `ftp.cpp`;
  `doPlayback` is the flag of the playback unit that the worker clears;
* `notifications`: the notification count of the worker task;
* `clientConnected`, `dclientConnected`: whether `client` and `dclient` are open;
* `sdOpen`: what `SD_MMC.open(sdPathName)` yields;
* `connectResults`, `dconnectResults`: what the next calls of `client.connect` and
  `dclient.connect` return (nothing scripted: false);
* `replies`: what the server sends on the next exchanges; `none`, an empty reply or nothing
  scripted is a wait that runs into `RESPONSE_TIMEOUT`;
* `writeResults`: how many bytes the next calls of `dclient.write` can take (nothing scripted: 0);
* `ctrlOut`: the lines printed on `client`; `dconnects`: host and port of every `dclient.connect`;
  `dataOut`: the bytes `dclient` took; `progress`: the percentages logged;
* `calls`: a record of the invocations of `createFtpFolder` and `ftpStoreFile`. -/
structure World where
  respCodeRx : List Nat
  rspBuf : List Nat
  sdPathName : List Nat
  uploadInProgress : Bool
  doPlayback : Bool
  notifications : Nat
  clientConnected : Bool
  dclientConnected : Bool
  sdOpen : Option Root
  connectResults : List Bool
  replies : List (Option (List Nat))
  dconnectResults : List Bool
  writeResults : List Nat
  ctrlOut : List (List Nat)
  dconnects : List (List Nat × Nat)
  dataOut : List Nat
  progress : List Nat
  calls : List Call
  deriving DecidableEq, Repr

/-- State at start-up: zeroed buffers, nothing connected, nothing scripted. -/
def World.init : World where
  respCodeRx := List.replicate 4 0
  rspBuf := List.replicate 256 0
  sdPathName := []
  uploadInProgress := false
  doPlayback := false
  notifications := 0
  clientConnected := false
  dclientConnected := false
  sdOpen := none
  connectResults := []
  replies := []
  dconnectResults := []
  writeResults := []
  ctrlOut := []
  dconnects := []
  dataOut := []
  progress := []
  calls := []

/-! ## Command exchange -/

/-- Reading of one reply: three bytes into `respCodeRx`, up to 255 into `rspBuf`, the rest binned. -/
def readReply (reply : List Nat) (rest : List (Option (List Nat))) (w : World) : World :=
  let code := reply.take 3
  let msg := (reply.drop 3).take 255
  { w with
    replies := rest
    respCodeRx := poke (writeBuf w.respCodeRx code) 3 0
    rspBuf := poke (writeBuf w.rspBuf msg) msg.length 0 }

/-- First part of `sendFtpCommand`: `client.print(cmd); client.println(param)` for a non-empty `cmd`. -/
def printCommand (cmd param : List Nat) (w : World) : World :=
  if strlen cmd ≠ 0 then { w with ctrlOut := w.ctrlOut ++ [cstr cmd ++ cstr param] } else w

/-- Second part of `sendFtpCommand`: wait for the reply (a missing or empty script entry is the
time-out), read it, and compare the code with the expected one unless that is "999". -/
def awaitReply (respCode : List Nat) (w : World) : Bool × World :=
  match w.replies with
  | [] => (false, w)
  | none :: rest => (false, { w with replies := rest })
  | some [] :: rest => (false, { w with replies := rest })
  | some (b :: bs) :: rest =>
    let w2 := readReply (b :: bs) rest w
    if strcmp respCode (str "999") = 0 then (true, w2)
    else if strcmp w2.respCodeRx respCode ≠ 0 then (false, w2)
    else (true, w2)

/-- Source function `sendFtpCommand`: print the command when there is one, wait for a reply, compare the code. -/
def sendFtpCommand (cmd param respCode : List Nat) (w : World) : Bool × World :=
  awaitReply respCode (printCommand cmd param w)

/-! ## Dispatcher entry point -/

/-- Source function `ftpFileOrFolder`: admit the request unless an upload is in progress. The `strcpy` into
`sdPathName[FILE_NAME_LEN]` has no result when the path and its terminator do not fit. -/
def ftpFileOrFolder (cfg : Config) (fileFolder : List Nat) (w : World) : Option (Bool × World) :=
  if !w.uploadInProgress then
    if cfg.FILE_NAME_LEN ≤ strlen fileFolder then none else
    some (true, { w with
      uploadInProgress := true
      sdPathName := writeBuf w.sdPathName (cstr fileFolder ++ [0])
      notifications := w.notifications + 1 })
  else some (false, w)

/-! ## Session manager -/

/-- Source function `ftpConnect`: open the control connection, then greeting, user, password, directory, type. -/
def ftpConnect (cfg : Config) (w : World) : Bool × World :=
  let res := w.connectResults.headD false
  let w0 := { w with connectResults := w.connectResults.tail, clientConnected := res }
  if !res then (false, w0) else
  let (ok1, w1) := sendFtpCommand (str "") (str "") (str "220") w0
  if !ok1 then (false, w1) else
  let (ok2, w2) := sendFtpCommand (str "USER ") cfg.ftp_user (str "331") w1
  if !ok2 then (false, w2) else
  let (ok3, w3) := sendFtpCommand (str "PASS ") cfg.ftp_pass (str "230") w2
  if !ok3 then (false, w3) else
  let (ok4, w4) := sendFtpCommand (str "CWD ") cfg.ftp_wd (str "250") w3
  if !ok4 then (false, w4) else
  let (ok5, w5) := sendFtpCommand (str "Type I") (str "") (str "200") w4
  if !ok5 then (false, w5) else
  (true, w5)

/-! ## Directory resolver -/

/-- Source function `createFtpFolder`: probe with `CWD`; on a 550 make the folder and change into it. -/
def createFtpFolder (folderName : List Nat) (w : World) : Bool × World :=
  let w0 := { w with calls := w.calls ++ [Call.createFtpFolder (cstr folderName)] }
  let (_, w1) := sendFtpCommand (str "CWD ") folderName (str "999") w0
  if strcmp w1.respCodeRx (str "550") = 0 then
    let (ok2, w2) := sendFtpCommand (str "MKD ") folderName (str "257") w1
    if !ok2 then (false, w2) else
    let (ok3, w3) := sendFtpCommand (str "CWD ") folderName (str "250") w2
    if !ok3 then (false, w3) else
    (true, w3)
  else (true, w1)

/-- The `for` loop of `getFolderName`. `p` and `pos` are offsets into `folderName`; each round
searches the next separator after `p`, overwrites it with a terminator and hands the C string at
`pos` to `createFtpFolder`. `fuel` bounds the rounds; the buffer length is always enough. -/
def getFolderLoop : Nat → List Nat → Nat → Nat → World → Option (Bool × World)
  | 0, _, _, _, _ => none
  | fuel + 1, folderName, p, pos, w =>
    match strchr (folderName.drop (p + 1)) 47 with
    | none => some (true, w)
    | some off =>
      let q := p + 1 + off
      let folderName1 := poke folderName q 0
      let (ok, w1) := createFtpFolder (folderName1.drop pos) w
      if !ok then some (false, w1)
      else getFolderLoop fuel folderName1 q (q + 1) w1

/-- Source function `getFolderName`: copy the path, then create every folder it names, left to right.
No result when the path does not fit `folderName[FILE_NAME_LEN]`, nor when it has no
separator at all, which makes the loop advance a null pointer. -/
def getFolderName (cfg : Config) (folderPath : List Nat) (w : World) : Option (Bool × World) :=
  if cfg.FILE_NAME_LEN ≤ strlen folderPath then none else
  let folderName := cstr folderPath ++ [0]
  match strchr folderName 47 with
  | none => none
  | some p => getFolderLoop folderName.length folderName p 1 w

/-! ## Data channel negotiator -/

/-- C `isspace` in the default locale. -/
def isspace (c : Nat) : Bool := c = 32 || (9 ≤ c && c ≤ 13)

/-- C `isdigit`. -/
def isdigit (c : Nat) : Bool := 48 ≤ c && c ≤ 57

/-- Value of a run of decimal digits. -/
def digitsValue (ds : List Nat) : Nat := ds.foldl (fun a d => a * 10 + (d - 48)) 0

/-- Outcome of one `%d` directive. -/
inductive Scan where
  | inputFailure
  | matchFailure
  | ok (value : Int) (rest : List Nat)
  deriving DecidableEq, Repr

/-- One `%d` directive of `sscanf`: skip white space, optional sign, at least one digit. -/
def scanInt (s : List Nat) : Scan :=
  match s.dropWhile isspace with
  | [] => Scan.inputFailure
  | c :: t =>
    let body := if c = 45 ∨ c = 43 then t else c :: t
    let ds := body.takeWhile isdigit
    if ds.isEmpty then Scan.matchFailure
    else Scan.ok (if c = 45 then -(digitsValue ds : Int) else digitsValue ds) (body.dropWhile isdigit)

/-- One literal character of a `sscanf` format. -/
def scanLit (c : Nat) : List Nat → Option (List Nat)
  | [] => none
  | x :: t => if x = c then some t else none

/-- The format fragment `,%d` (also used for `,%*d`). -/
def commaInt (s : List Nat) : Option (Int × List Nat) :=
  match scanLit 44 s with
  | none => none
  | some t =>
    match scanInt t with
    | Scan.ok v r => some (v, r)
    | _ => none

/-- Whether a value can be represented in the 32-bit `int`. -/
def fitsInt (v : Int) : Bool := decide (-2147483648 ≤ v) && decide (v ≤ 2147483647)

/-- The call `sscanf(p, "(%*d,%*d,%*d,%*d,%d,%d)", &p1, &p2)` on the C string content `s`:
the number of items assigned (`-1` is `EOF`) and the two values. A number that is to be stored
and does not fit the `int` makes the conversion undefined: no result. The four numbers that are
skipped are not stored. -/
def sscanfPasv (s : List Nat) : Option (Int × Int × Int) :=
  match scanLit 40 s with
  | none => some (if s.isEmpty then -1 else 0, 0, 0)
  | some s0 =>
    match scanInt s0 with
    | Scan.inputFailure => some (-1, 0, 0)
    | Scan.matchFailure => some (0, 0, 0)
    | Scan.ok _ s1 =>
      match commaInt s1 with
      | none => some (0, 0, 0)
      | some (_, s2) =>
      match commaInt s2 with
      | none => some (0, 0, 0)
      | some (_, s3) =>
      match commaInt s3 with
      | none => some (0, 0, 0)
      | some (_, s4) =>
      match commaInt s4 with
      | none => some (0, 0, 0)
      | some (a, s5) =>
      if !fitsInt a then none else
      match commaInt s5 with
      | none => some (1, a, 0)
      | some (b, _) => if !fitsInt b then none else some (2, a, b)

/-- The expression `(p1 << 8) + p2` on `int`: undefined, so without a value, when `p1` is
negative and when the shifted value or the sum does not fit the `int`. -/
def shiftAdd (p1 p2 : Int) : Option Int :=
  if p1 < 0 then none
  else if !fitsInt (p1 * 256) then none
  else if !fitsInt (p1 * 256 + p2) then none
  else some (p1 * 256 + p2)

/-- The C string that starts where `strchr(buf, c)` points; nothing for a null pointer. -/
def cstrAt (buf : List Nat) (c : Nat) : Option (List Nat) :=
  (strchr buf c).map (fun off => cstr (buf.drop off))

/-- The port derivation of `openDataPort` from the message in `rspBuf`: `strchr`, `sscanf`,
the test of `items`, the shift. The outer option is empty where the behaviour is undefined (a
null pointer into `sscanf`, a number beyond `int`, a bad shift); the inner one is empty when
fewer than two items were assigned. The port is the `int` reduced to the `uint16_t` parameter
of `WiFiClient::connect`. -/
def parsePasv (rspBuf : List Nat) : Option (Option Nat) :=
  match cstrAt rspBuf 40 with
  | none => none
  | some s =>
    match sscanfPasv s with
    | none => none
    | some (items, p1, p2) =>
      if items ≠ 2 then some none else
      match shiftAdd p1 p2 with
      | none => none
      | some dataPort => some (some (dataPort % 65536).toNat)

/-- Source function `openDataPort`: `PASV`, parse the port out of the reply, connect the data
client. No result where `parsePasv` has none. -/
def openDataPort (cfg : Config) (w : World) : Option (Bool × World) :=
  let (ok, w1) := sendFtpCommand (str "PASV") (str "") (str "227") w
  if !ok then some (false, w1) else
  match parsePasv w1.rspBuf with
  | none => none
  | some none => some (false, w1)
  | some (some port) =>
    let res := w1.dconnectResults.headD false
    let w2 := { w1 with
      dconnectResults := w1.dconnectResults.tail
      dconnects := w1.dconnects ++ [(cfg.ftp_server, port)]
      dclientConnected := res }
    if !res then some (false, w2) else some (true, w2)

/-! ## File transfer engine -/

/-- The call `dclient.write(chunk, readLen)`: the transport consumes as many bytes as scripted,
never more than offered, and reports that count. -/
def dclientWrite (chunk : List Nat) (w : World) : Nat × World :=
  let writeLen := min (w.writeResults.headD 0) chunk.length
  (writeLen, { w with
    writeResults := w.writeResults.tail
    dataOut := w.dataOut ++ chunk.take writeLen })

/-- The `do ... while (readLen > 0)` loop of `ftpStoreFile` over what the hook delivers.
Returns whether no write came back empty, and the `uint32_t` counter `writeBytes`.
The progress line divides by the file size: with a size of zero there is no result. -/
def storeLoop (fileSize : Nat) : List (List Nat) → Nat → Nat → World → Option (Bool × Nat × World)
  | [], writeBytes, _, w => some (true, writeBytes, w)
  | chunk :: more, writeBytes, progCnt, w =>
    if chunk.length = 0 then some (true, writeBytes, w) else
    let (writeLen, w1) := dclientWrite chunk w
    let writeBytes1 := (writeBytes + writeLen) % 4294967296
    if writeLen = 0 then some (false, writeBytes1, w1) else
    let progCnt1 := (progCnt + 1) % 4294967296
    if progCnt1 % 50 = 0 then
      if fileSize = 0 then none
      else storeLoop fileSize more writeBytes1 progCnt1
        { w1 with progress := w1.progress ++ [writeBytes1 * 100 % 4294967296 / fileSize] }
    else storeLoop fileSize more writeBytes1 progCnt1 w1

/-- Source function `ftpStoreFile`: extension check, the name to store under (a `strcpy` into
`ftpSaveName[FILE_NAME_LEN]` unless the hook renames the file), data port (its result is not
looked at), `STOR`, the chunk loop, close of the data client, and the final exchange whose result
is only logged. -/
def ftpStoreFile (cfg : Config) (fh : Entry) (w : World) : Option (Bool × World) :=
  let w0 := { w with calls := w.calls ++ [Call.ftpStoreFile (cstr fh.name)] }
  if !strstrFound (cstr fh.name) (cstr cfg.FILE_EXT) then some (false, w0) else
  if fh.isAVI = false ∧ cfg.FILE_NAME_LEN ≤ strlen fh.name then none else
  let ftpSaveName := if fh.isAVI then cfg.changeExtension fh.name else cstr fh.name
  match openDataPort cfg w0 with
  | none => none
  | some (_, w1) =>
    let (ok, w2) := sendFtpCommand (str "STOR ") ftpSaveName (str "150") w1
    if !ok then some (false, w2) else
    match storeLoop fh.size fh.reads 0 0 w2 with
    | none => none
    | some (false, _, w3) => some (false, w3)
    | some (true, _, w3) =>
      let w4 := { w3 with dclientConnected := false }
      let (_, w5) := sendFtpCommand (str "") (str "") (str "226") w4
      some (true, w5)

/-! ## Upload orchestrator -/

/-- The `while (fh)` loop over the children of a folder: stop at the first `false`. -/
def uploadChildren (cfg : Config) : List Entry → World → Option World
  | [], w => some w
  | fh :: more, w =>
    match ftpStoreFile cfg fh w with
    | none => none
    | some (false, w1) => some w1
    | some (true, w1) => uploadChildren cfg more w1

/-- Source function `uploadFolderOrFileFtp`: one file, or the files of one folder. -/
def uploadFolderOrFileFtp (cfg : Config) (w : World) : Option World :=
  if strlen w.sdPathName < 2 then some w else
  let (ok, w1) := ftpConnect cfg w
  if !ok then some w1 else
  match w1.sdOpen with
  | none => some w1
  | some root =>
    if !root.entry.isDirectory then
      match getFolderName cfg root.entry.path w1 with
      | none => none
      | some (false, w2) => some w2
      | some (true, w2) => (ftpStoreFile cfg root.entry w2).map (·.2)
    else
      let (ok2, w2) := createFtpFolder root.entry.name w1
      if !ok2 then some w2 else
      uploadChildren cfg root.children w2

/-! ## Worker -/

/-- One round of the `while (true)` loop of `FTPtask`, from the wake-up on. -/
def FTPtask (cfg : Config) (w : World) : Option World :=
  let w0 := { w with notifications := 0, doPlayback := false }
  match uploadFolderOrFileFtp cfg w0 with
  | none => none
  | some w1 =>
    some { w1 with
      ctrlOut := w1.ctrlOut ++ [str "QUIT"]
      dclientConnected := false
      clientConnected := false
      uploadInProgress := false }

/-! ## Vocabulary of the statements -/

/-- A non-empty run of decimal digits. -/
def IsDigits (l : List Nat) : Prop := l ≠ [] ∧ ∀ c ∈ l, isdigit c = true

/-- A decimal number as `%d` reads it: a run of digits, with or without a minus sign ahead. -/
def IsNumber (l : List Nat) : Prop := IsDigits l ∨ ∃ l', l = 45 :: l' ∧ IsDigits l'

/-- The bytes `(d1,d2,d3,d4,d5,d6)`. -/
def tuple6 (d1 d2 d3 d4 d5 d6 : List Nat) : List Nat :=
  40 :: (d1 ++ 44 :: (d2 ++ 44 :: (d3 ++ 44 :: (d4 ++ 44 :: (d5 ++ 44 :: (d6 ++ [41]))))))

/-- The bytes `(h1,h2,h3,h4,p1,p2)` with every number in decimal. -/
def pasvTuple (h1 h2 h3 h4 : Int) (p1 p2 : Nat) : List Nat :=
  tuple6 (str (toString h1)) (str (toString h2)) (str (toString h3)) (str (toString h4))
    (str (toString p1)) (str (toString p2))

/-- The bytes `s1/s2/.../sN/name`: every folder segment followed by a separator, then the name. -/
def joinPath : List (List Nat) → List Nat → List Nat
  | [], name => name
  | seg :: more, name => seg ++ 47 :: joinPath more name

/-- The path `/s1/s2/.../sN/name`. -/
def pathOf (segs : List (List Nat)) (name : List Nat) : List Nat := 47 :: joinPath segs name

/-- Operation `ensurePath` as the specification words it: `ensureFolder` on each segment in order,
giving up at the first one that fails. -/
def ensurePath : List (List Nat) → World → Bool × World
  | [], w => (true, w)
  | seg :: more, w =>
    match createFtpFolder seg w with
    | (false, w1) => (false, w1)
    | (true, w1) => ensurePath more w1

/-- A byte list without separator and without NUL. -/
def IsSegment (seg : List Nat) : Prop := ∀ c ∈ seg, c ≠ 47 ∧ c ≠ 0

/-- Every file of the list is stored with success, one after the other; the state after the last. -/
def storeAll (cfg : Config) : List Entry → World → Option World
  | [], w => some w
  | fh :: more, w =>
    match ftpStoreFile cfg fh w with
    | some (true, w1) => storeAll cfg more w1
    | _ => none

/-- A configuration for the worked examples. -/
def demoConfig : Config where
  ftp_server := str "192.168.1.20"
  ftp_port := str "21"
  ftp_user := str "cam"
  ftp_pass := str "pw"
  ftp_wd := str "/"
  FILE_EXT := str ".mjpeg"
  FILE_NAME_LEN := 64
  changeExtension := fun n => cstr n

/-- A plain file of the worked examples: its content is delivered unchanged, chunk by chunk. -/
def demoFile (name : String) (chunks : List (List Nat)) : Entry where
  name := str name
  path := str ("/20221004/" ++ name)
  isDirectory := false
  size := chunks.flatten.length
  isAVI := false
  reads := chunks

/-- The state of the worked example of a folder: five files in a folder, the second write takes
nothing. -/
def demoFiveWorld : World :=
  { World.init with
    replies := [some (str "227 Entering Passive Mode (10,0,0,1,200,24)"), some (str "150 Ok"),
      some (str "226 Done"), some (str "227 Entering Passive Mode (10,0,0,1,200,25)"),
      some (str "150 Ok"), some (str "226 Done")]
    dconnectResults := [true, true, true]
    writeResults := [3, 0, 3, 3, 3] }

/-- The state of the worked example of one file: the server accepts the transfer and the data
channel takes whatever it is offered. -/
def demoStoreWorld : World :=
  { World.init with
    replies := [some (str "227 Entering Passive Mode (10,0,0,1,200,24)"), some (str "150 Ok"),
      some (str "226 Done")]
    dconnectResults := [true]
    writeResults := [1460, 1460] }

/-- A scripted reply that keeps the reply parser within defined behaviour: it holds its three
code bytes, and when these are `227` the port derivation on the message read into `rspBuf` is
defined (there is an opening parenthesis, the numbers stored fit, the shift is sound). -/
def ReplyOK (r : Option (List Nat)) : Prop :=
  ∀ bytes, r = some bytes →
    3 ≤ bytes.length ∧
    (bytes.take 3 = str "227" → parsePasv ((bytes.drop 3).take 255 ++ [0]) ≠ none)

/-- An entry whose progress line never divides by zero: a size of zero comes with fewer than
fifty chunks. -/
def SizeOK (e : Entry) : Prop := e.size = 0 → e.reads.length < 50

/-- An entry whose progress line never divides by zero and whose name fits its buffer. -/
def EntryOK (cfg : Config) (e : Entry) : Prop := SizeOK e ∧ strlen e.name < cfg.FILE_NAME_LEN

/-- Inputs on which no step of an upload leaves defined behaviour: every scripted reply is
`ReplyOK`, the path of what the card opens has a separator and fits its buffer, and every entry
is `EntryOK`. -/
def Defined (cfg : Config) (w : World) : Prop :=
  (∀ r ∈ w.replies, ReplyOK r) ∧
  ∀ root, w.sdOpen = some root →
    47 ∈ cstr root.entry.path ∧ strlen root.entry.path < cfg.FILE_NAME_LEN ∧
    EntryOK cfg root.entry ∧ ∀ e ∈ root.children, EntryOK cfg e

/-- The state `w1` comes after `w`: the same card, and a reply script that is a rest of the old. -/
def Later (w1 w : World) : Prop := w1.replies <:+ w.replies ∧ w1.sdOpen = w.sdOpen

/-- The state of the worked example of a whole round: a request for the folder `/20221004`
with two files has been admitted, and the server accepts everything. -/
def demoRoundWorld : World :=
  { World.init with
    sdPathName := str "/20221004"
    uploadInProgress := true
    notifications := 1
    sdOpen := some
      { entry := { name := str "20221004", path := str "/20221004", isDirectory := true,
                   size := 0, isAVI := false, reads := [] }
        children := [demoFile "1.mjpeg" [[1, 2, 3]], demoFile "2.mjpeg" [[4, 5, 6]]] }
    connectResults := [true]
    replies := [some (str "220 Ready"), some (str "331 Password"), some (str "230 Logged in"),
      some (str "250 Ok"), some (str "200 Type set"), some (str "250 Ok"),
      some (str "227 Entering Passive Mode (10,0,0,1,200,24)"), some (str "150 Ok"),
      some (str "226 Done"), some (str "227 Entering Passive Mode (10,0,0,1,200,25)"),
      some (str "150 Ok"), some (str "226 Done")]
    dconnectResults := [true, true]
    writeResults := [1460, 1460] }

/-! ## Lemmas on C strings -/

theorem lexCmp_eq_zero : ∀ a b : List Nat, lexCmp a b = 0 ↔ a = b
  | [], [] => by simp [lexCmp]
  | [], _ :: _ => by simp [lexCmp]
  | _ :: _, [] => by simp [lexCmp]
  | a :: s, b :: t => by
    unfold lexCmp
    by_cases h1 : a < b
    · simp [h1]; omega
    · by_cases h2 : b < a
      · simp [h1, h2]; omega
      · have hab : a = b := by omega
        simp [h1, h2, hab, lexCmp_eq_zero s t]

theorem strcmp_eq_zero (a b : List Nat) : strcmp a b = 0 ↔ cstr a = cstr b :=
  lexCmp_eq_zero _ _

theorem cstr_append_zero : ∀ (a t : List Nat), cstr (a ++ 0 :: t) = cstr a
  | [], t => by simp [cstr]
  | c :: a, t => by
    by_cases hc : c = 0
    · simp [cstr, hc]
    · simp [cstr, hc, cstr_append_zero a t]

theorem cstr_of_no_zero : ∀ (a : List Nat), (∀ c ∈ a, c ≠ 0) → cstr a = a
  | [], _ => rfl
  | c :: a, h => by
    have hc : c ≠ 0 := h c (by simp)
    have ha : ∀ x ∈ a, x ≠ 0 := fun x hx => h x (by simp [hx])
    simp [cstr, hc, cstr_of_no_zero a ha]

theorem cstr_no_zero : ∀ (a : List Nat), ∀ c ∈ cstr a, c ≠ 0
  | [], c, h => by simp [cstr] at h
  | x :: a, c, h => by
    by_cases hx : x = 0
    · simp [cstr, hx] at h
    · simp only [cstr, hx, if_false, List.mem_cons] at h
      rcases h with h | h
      · exact h ▸ hx
      · exact cstr_no_zero a c h

theorem cstr_idem (a : List Nat) : cstr (cstr a) = cstr a :=
  cstr_of_no_zero _ (cstr_no_zero a)

theorem poke_writeBuf (buf data : List Nat) :
    poke (writeBuf buf data) data.length 0 = data ++ 0 :: (buf.drop data.length).drop 1 := by
  simp [poke, writeBuf]

/-- After a reply of at least three bytes the code buffer holds exactly those three bytes. -/
theorem cstr_respCodeRx_readReply (reply : List Nat) (rest : List (Option (List Nat))) (w : World)
    (hlen : 3 ≤ reply.length) :
    cstr (readReply reply rest w).respCodeRx = cstr (reply.take 3) := by
  have h3 : (reply.take 3).length = 3 := by simp [hlen]
  have := poke_writeBuf w.respCodeRx (reply.take 3)
  rw [h3] at this
  simp only [readReply, this, cstr_append_zero]

/-- After any reply the message buffer holds the first 255 bytes that follow the code. -/
theorem cstr_rspBuf_readReply (reply : List Nat) (rest : List (Option (List Nat))) (w : World) :
    cstr (readReply reply rest w).rspBuf = cstr ((reply.drop 3).take 255) := by
  simp only [readReply, poke_writeBuf, cstr_append_zero]

@[simp] theorem printCommand_replies (cmd param : List Nat) (w : World) :
    (printCommand cmd param w).replies = w.replies := by
  unfold printCommand; split <;> rfl

/-! ## Frame lemmas: what the two halves of an exchange leave alone -/

@[simp] theorem printCommand_respCodeRx (cmd param : List Nat) (w : World) :
    (printCommand cmd param w).respCodeRx = w.respCodeRx := by
  unfold printCommand; split <;> rfl

@[simp] theorem printCommand_rspBuf (cmd param : List Nat) (w : World) :
    (printCommand cmd param w).rspBuf = w.rspBuf := by
  unfold printCommand; split <;> rfl

@[simp] theorem printCommand_sdPathName (cmd param : List Nat) (w : World) :
    (printCommand cmd param w).sdPathName = w.sdPathName := by
  unfold printCommand; split <;> rfl

@[simp] theorem printCommand_uploadInProgress (cmd param : List Nat) (w : World) :
    (printCommand cmd param w).uploadInProgress = w.uploadInProgress := by
  unfold printCommand; split <;> rfl

@[simp] theorem printCommand_doPlayback (cmd param : List Nat) (w : World) :
    (printCommand cmd param w).doPlayback = w.doPlayback := by
  unfold printCommand; split <;> rfl

@[simp] theorem printCommand_notifications (cmd param : List Nat) (w : World) :
    (printCommand cmd param w).notifications = w.notifications := by
  unfold printCommand; split <;> rfl

@[simp] theorem printCommand_clientConnected (cmd param : List Nat) (w : World) :
    (printCommand cmd param w).clientConnected = w.clientConnected := by
  unfold printCommand; split <;> rfl

@[simp] theorem printCommand_dclientConnected (cmd param : List Nat) (w : World) :
    (printCommand cmd param w).dclientConnected = w.dclientConnected := by
  unfold printCommand; split <;> rfl

@[simp] theorem printCommand_sdOpen (cmd param : List Nat) (w : World) :
    (printCommand cmd param w).sdOpen = w.sdOpen := by
  unfold printCommand; split <;> rfl

@[simp] theorem printCommand_connectResults (cmd param : List Nat) (w : World) :
    (printCommand cmd param w).connectResults = w.connectResults := by
  unfold printCommand; split <;> rfl

@[simp] theorem printCommand_dconnectResults (cmd param : List Nat) (w : World) :
    (printCommand cmd param w).dconnectResults = w.dconnectResults := by
  unfold printCommand; split <;> rfl

@[simp] theorem printCommand_writeResults (cmd param : List Nat) (w : World) :
    (printCommand cmd param w).writeResults = w.writeResults := by
  unfold printCommand; split <;> rfl

@[simp] theorem printCommand_dconnects (cmd param : List Nat) (w : World) :
    (printCommand cmd param w).dconnects = w.dconnects := by
  unfold printCommand; split <;> rfl

@[simp] theorem printCommand_dataOut (cmd param : List Nat) (w : World) :
    (printCommand cmd param w).dataOut = w.dataOut := by
  unfold printCommand; split <;> rfl

@[simp] theorem printCommand_progress (cmd param : List Nat) (w : World) :
    (printCommand cmd param w).progress = w.progress := by
  unfold printCommand; split <;> rfl

@[simp] theorem printCommand_calls (cmd param : List Nat) (w : World) :
    (printCommand cmd param w).calls = w.calls := by
  unfold printCommand; split <;> rfl

@[simp] theorem readReply_sdPathName (reply : List Nat) (rest : List (Option (List Nat))) (w : World) :
    (readReply reply rest w).sdPathName = w.sdPathName := rfl

@[simp] theorem readReply_uploadInProgress (reply : List Nat) (rest : List (Option (List Nat))) (w : World) :
    (readReply reply rest w).uploadInProgress = w.uploadInProgress := rfl

@[simp] theorem readReply_doPlayback (reply : List Nat) (rest : List (Option (List Nat))) (w : World) :
    (readReply reply rest w).doPlayback = w.doPlayback := rfl

@[simp] theorem readReply_notifications (reply : List Nat) (rest : List (Option (List Nat))) (w : World) :
    (readReply reply rest w).notifications = w.notifications := rfl

@[simp] theorem readReply_clientConnected (reply : List Nat) (rest : List (Option (List Nat))) (w : World) :
    (readReply reply rest w).clientConnected = w.clientConnected := rfl

@[simp] theorem readReply_dclientConnected (reply : List Nat) (rest : List (Option (List Nat))) (w : World) :
    (readReply reply rest w).dclientConnected = w.dclientConnected := rfl

@[simp] theorem readReply_sdOpen (reply : List Nat) (rest : List (Option (List Nat))) (w : World) :
    (readReply reply rest w).sdOpen = w.sdOpen := rfl

@[simp] theorem readReply_connectResults (reply : List Nat) (rest : List (Option (List Nat))) (w : World) :
    (readReply reply rest w).connectResults = w.connectResults := rfl

@[simp] theorem readReply_dconnectResults (reply : List Nat) (rest : List (Option (List Nat))) (w : World) :
    (readReply reply rest w).dconnectResults = w.dconnectResults := rfl

@[simp] theorem readReply_writeResults (reply : List Nat) (rest : List (Option (List Nat))) (w : World) :
    (readReply reply rest w).writeResults = w.writeResults := rfl

@[simp] theorem readReply_ctrlOut (reply : List Nat) (rest : List (Option (List Nat))) (w : World) :
    (readReply reply rest w).ctrlOut = w.ctrlOut := rfl

@[simp] theorem readReply_dconnects (reply : List Nat) (rest : List (Option (List Nat))) (w : World) :
    (readReply reply rest w).dconnects = w.dconnects := rfl

@[simp] theorem readReply_dataOut (reply : List Nat) (rest : List (Option (List Nat))) (w : World) :
    (readReply reply rest w).dataOut = w.dataOut := rfl

@[simp] theorem readReply_progress (reply : List Nat) (rest : List (Option (List Nat))) (w : World) :
    (readReply reply rest w).progress = w.progress := rfl

@[simp] theorem readReply_calls (reply : List Nat) (rest : List (Option (List Nat))) (w : World) :
    (readReply reply rest w).calls = w.calls := rfl

/-- The effect of `sendFtpCommand` when a non-empty reply is waiting: the reply is read and the
result is the comparison of the code buffer with the expected code, unless that is "999". -/
theorem sendFtpCommand_of_reply (cmd param respCode reply : List Nat)
    (rest : List (Option (List Nat))) (w : World)
    (hw : w.replies = some reply :: rest) (hne : reply ≠ []) :
    sendFtpCommand cmd param respCode w =
      (decide (cstr respCode = str "999") ||
        decide (cstr (readReply reply rest (printCommand cmd param w)).respCodeRx = cstr respCode),
        readReply reply rest (printCommand cmd param w)) := by
  obtain ⟨b, bs, rfl⟩ : ∃ b bs, reply = b :: bs := by
    cases reply with
    | nil => exact absurd rfl hne
    | cons b bs => exact ⟨b, bs, rfl⟩
  have h999 : cstr (str "999") = str "999" := by decide
  have hw1 : (printCommand cmd param w).replies = some (b :: bs) :: rest := by
    rw [printCommand_replies, hw]
  unfold sendFtpCommand awaitReply
  simp only [hw1]
  by_cases h1 : cstr respCode = str "999"
  · simp [strcmp_eq_zero, h999, h1]
  · simp only [strcmp_eq_zero, h999, h1, if_false, ne_eq, decide_False, Bool.false_or]
    split <;> simp_all

/-- The outcome of `sendFtpCommand` on a reply of at least three bytes. -/
theorem sendFtpCommand_fst (cmd param respCode reply : List Nat)
    (rest : List (Option (List Nat))) (w : World)
    (hw : w.replies = some reply :: rest) (hlen : 3 ≤ reply.length) :
    (sendFtpCommand cmd param respCode w).1 =
      (decide (cstr respCode = str "999") || decide (cstr (reply.take 3) = cstr respCode)) := by
  have hne : reply ≠ [] := by
    intro h; subst h; simp at hlen
  rw [sendFtpCommand_of_reply cmd param respCode reply rest w hw hne,
    cstr_respCodeRx_readReply _ _ _ hlen]

theorem digitChar_toNat (k : Nat) (hk : k < 10) : (Nat.digitChar k).toNat = k + 48 := by
  interval_cases k <;> rfl

theorem digitsValue_append_single (l : List Nat) (d : Nat) :
    digitsValue (l ++ [d]) = digitsValue l * 10 + (d - 48) := by
  simp [digitsValue, List.foldl_append]

theorem toDigitsCore_spec : ∀ (fuel n : Nat) (ds : List Char), n < fuel →
    ∃ l : List Char, Nat.toDigitsCore 10 fuel n ds = l ++ ds ∧
      IsDigits (l.map Char.toNat) ∧ digitsValue (l.map Char.toNat) = n
  | 0, n, ds, h => by omega
  | fuel + 1, n, ds, h => by
    have hd : (Nat.digitChar (n % 10)).toNat = n % 10 + 48 := digitChar_toNat _ (Nat.mod_lt _ (by decide))
    unfold Nat.toDigitsCore
    by_cases h0 : n / 10 = 0
    · refine ⟨[Nat.digitChar (n % 10)], by simp [h0], ⟨by simp, ?_⟩, ?_⟩
      · simp [hd, isdigit]; omega
      · simp [hd, digitsValue]; omega
    · obtain ⟨l, hl, hdig, hval⟩ := toDigitsCore_spec fuel (n / 10) (Nat.digitChar (n % 10) :: ds) (by omega)
      refine ⟨l ++ [Nat.digitChar (n % 10)], by simp [h0, hl], ⟨by simp, ?_⟩, ?_⟩
      · intro c hc
        simp only [List.map_append, List.mem_append, List.map_cons, List.map_nil, List.mem_singleton] at hc
        rcases hc with hc | hc
        · exact hdig.2 c hc
        · subst hc; simp [hd, isdigit]; omega
      · rw [List.map_append, List.map_cons, List.map_nil, digitsValue_append_single, hval, hd]
        omega

/-- The decimal rendering of a natural number is a run of digits with that value. -/
theorem str_toString_spec (n : Nat) :
    IsDigits (str (toString n)) ∧ digitsValue (str (toString n)) = n := by
  obtain ⟨l, hl, hdig, hval⟩ := toDigitsCore_spec (n + 1) n [] (by omega)
  have : str (toString n) = l.map Char.toNat := by
    show (String.toList (Nat.repr n)).map Char.toNat = _
    simp [Nat.repr, Nat.toDigits, hl, List.asString]
  rw [this]; exact ⟨hdig, hval⟩

theorem takeWhile_isdigit_append (l rest : List Nat) (hl : ∀ c ∈ l, isdigit c = true)
    (hrest : ∀ c t, rest = c :: t → isdigit c = false) :
    (l ++ rest).takeWhile isdigit = l ∧ (l ++ rest).dropWhile isdigit = rest := by
  induction l with
  | nil =>
    cases rest with
    | nil => simp
    | cons c t => simp [hrest c t rfl]
  | cons a l ih =>
    have ha : isdigit a = true := hl a (by simp)
    have := ih (fun c hc => hl c (by simp [hc]))
    simp [ha, this]

/-- The `%d` directive on a run of digits followed by a non-digit. -/
theorem scanInt_digits (l rest : List Nat) (hl : IsDigits l)
    (hrest : ∀ c t, rest = c :: t → isdigit c = false) :
    scanInt (l ++ rest) = Scan.ok (digitsValue l) rest := by
  obtain ⟨a, l', rfl⟩ : ∃ a l', l = a :: l' := by
    cases l with
    | nil => exact absurd rfl hl.1
    | cons a l' => exact ⟨a, l', rfl⟩
  have ha : isdigit a = true := hl.2 a (by simp)
  have ha' : 48 ≤ a ∧ a ≤ 57 := by simpa [isdigit] using ha
  have hsp : isspace a = false := by simp [isspace]; omega
  have h45 : a ≠ 45 := by omega
  have h43 : a ≠ 43 := by omega
  obtain ⟨ht, hd⟩ := takeWhile_isdigit_append (a :: l') rest hl.2 hrest
  have hdw : (a :: (l' ++ rest)).dropWhile isspace = a :: (l' ++ rest) := by simp [hsp]
  rw [List.cons_append] at ht hd
  unfold scanInt
  rw [List.cons_append, hdw]
  simp [h45, h43, ht, hd]

theorem commaInt_digits (l rest : List Nat) (hl : IsDigits l)
    (hrest : ∀ c t, rest = c :: t → isdigit c = false) :
    commaInt (44 :: (l ++ rest)) = some ((digitsValue l : Int), rest) := by
  simp [commaInt, scanLit, scanInt_digits l rest hl hrest]

/-- The `%d` directive on a number, signed or not, followed by a non-digit. -/
theorem scanInt_number (l rest : List Nat) (hl : IsNumber l)
    (hrest : ∀ c t, rest = c :: t → isdigit c = false) :
    ∃ v, scanInt (l ++ rest) = Scan.ok v rest := by
  rcases hl with hl | ⟨l', rfl, hl'⟩
  · exact ⟨_, scanInt_digits l rest hl hrest⟩
  · obtain ⟨ht, hd⟩ := takeWhile_isdigit_append l' rest hl'.2 hrest
    have hne : l' ≠ [] := hl'.1
    refine ⟨-(digitsValue l' : Int), ?_⟩
    unfold scanInt
    have hdw : (45 :: (l' ++ rest)).dropWhile isspace = 45 :: (l' ++ rest) := by
      simp [isspace]
    rw [List.cons_append, hdw]
    simp [ht, hd, hne]

theorem commaInt_number (l rest : List Nat) (hl : IsNumber l)
    (hrest : ∀ c t, rest = c :: t → isdigit c = false) :
    ∃ v, commaInt (44 :: (l ++ rest)) = some (v, rest) := by
  obtain ⟨v, hv⟩ := scanInt_number l rest hl hrest
  exact ⟨v, by simp [commaInt, scanLit, hv]⟩

/-- The decimal rendering of an integer is a number as `%d` reads it. -/
theorem str_toString_int_spec (z : Int) : IsNumber (str (toString z)) := by
  cases z with
  | ofNat m => exact Or.inl (str_toString_spec m).1
  | negSucc m =>
    refine Or.inr ⟨str (toString (m + 1)), ?_, (str_toString_spec (m + 1)).1⟩
    show (String.toList ("-" ++ toString (Nat.succ m))).map Char.toNat = _
    simp [str]

theorem fitsInt_of_lt (n : Nat) (h : n < 2147483648) : fitsInt (n : Int) = true := by
  simp [fitsInt]; omega

theorem sscanfPasv_tuple6 (d1 d2 d3 d4 d5 d6 tail : List Nat)
    (h1 : IsNumber d1) (h2 : IsNumber d2) (h3 : IsNumber d3) (h4 : IsNumber d4)
    (h5 : IsDigits d5) (h6 : IsDigits d6)
    (f5 : digitsValue d5 < 2147483648) (f6 : digitsValue d6 < 2147483648) :
    sscanfPasv (tuple6 d1 d2 d3 d4 d5 d6 ++ tail) =
      some (2, (digitsValue d5 : Int), (digitsValue d6 : Int)) := by
  have hc : ∀ (x : List Nat) (c : Nat) (t : List Nat), 44 :: x = c :: t → isdigit c = false := by
    intro x c t h; cases h; decide
  have hp : ∀ (x : List Nat) (c : Nat) (t : List Nat), 41 :: x = c :: t → isdigit c = false := by
    intro x c t h; cases h; decide
  obtain ⟨v1, e1⟩ := scanInt_number d1 _ h1
    (hc (d2 ++ 44 :: (d3 ++ 44 :: (d4 ++ 44 :: (d5 ++ 44 :: (d6 ++ 41 :: tail))))))
  obtain ⟨v2, e2⟩ := commaInt_number d2 _ h2
    (hc (d3 ++ 44 :: (d4 ++ 44 :: (d5 ++ 44 :: (d6 ++ 41 :: tail)))))
  obtain ⟨v3, e3⟩ := commaInt_number d3 _ h3 (hc (d4 ++ 44 :: (d5 ++ 44 :: (d6 ++ 41 :: tail))))
  obtain ⟨v4, e4⟩ := commaInt_number d4 _ h4 (hc (d5 ++ 44 :: (d6 ++ 41 :: tail)))
  simp only [sscanfPasv, tuple6, scanLit, List.cons_append, List.append_assoc, if_true,
    List.nil_append, e1, e2, e3, e4, commaInt_digits d5 _ h5 (hc _),
    commaInt_digits d6 _ h6 (hp _), fitsInt_of_lt _ f5, fitsInt_of_lt _ f6, Bool.not_true,
    Bool.false_eq_true, if_false]

theorem cstr_append_of_no_zero : ∀ (a b : List Nat), (∀ c ∈ a, c ≠ 0) → cstr (a ++ b) = a ++ cstr b
  | [], _, _ => rfl
  | c :: a, b, h => by
    have hc : c ≠ 0 := h c (by simp)
    have ha : ∀ x ∈ a, x ≠ 0 := fun x hx => h x (by simp [hx])
    simp [cstr, hc, cstr_append_of_no_zero a b ha]

theorem strchr_append : ∀ (a b : List Nat) (c : Nat), (∀ x ∈ a, x ≠ c ∧ x ≠ 0) →
    strchr (a ++ c :: b) c = some a.length
  | [], b, c, _ => by simp [strchr]
  | x :: a, b, c, h => by
    have hx := h x (by simp)
    have ha : ∀ y ∈ a, y ≠ c ∧ y ≠ 0 := fun y hy => h y (by simp [hy])
    simp [strchr, hx.1, hx.2, strchr_append a b c ha]

theorem isDigits_ne_zero (l : List Nat) (hl : IsDigits l) : ∀ c ∈ l, c ≠ 0 := by
  intro c hc h0
  have := hl.2 c hc
  subst h0
  simp [isdigit] at this

theorem isNumber_ne_zero (l : List Nat) (hl : IsNumber l) : ∀ c ∈ l, c ≠ 0 := by
  rcases hl with hl | ⟨l', rfl, hl'⟩
  · exact isDigits_ne_zero l hl
  · intro c hc
    simp only [List.mem_cons] at hc
    rcases hc with h | h
    · omega
    · exact isDigits_ne_zero l' hl' c h

theorem tuple6_ne_zero (d1 d2 d3 d4 d5 d6 : List Nat)
    (h1 : IsNumber d1) (h2 : IsNumber d2) (h3 : IsNumber d3) (h4 : IsNumber d4)
    (h5 : IsDigits d5) (h6 : IsDigits d6) : ∀ c ∈ tuple6 d1 d2 d3 d4 d5 d6, c ≠ 0 := by
  intro c hc
  simp only [tuple6, List.mem_cons, List.mem_append, List.mem_singleton, List.not_mem_nil,
    or_false] at hc
  rcases hc with h | h | h | h | h | h | h | h | h | h | h | h | h
  all_goals first
    | omega
    | exact isNumber_ne_zero _ h1 c h
    | exact isNumber_ne_zero _ h2 c h
    | exact isNumber_ne_zero _ h3 c h
    | exact isNumber_ne_zero _ h4 c h
    | exact isDigits_ne_zero _ h5 c h
    | exact isDigits_ne_zero _ h6 c h

/-- The C string at the first `c`, when only clean bytes come before it. -/
theorem cstrAt_append (a b : List Nat) (c : Nat) (h : ∀ x ∈ a, x ≠ c ∧ x ≠ 0) :
    cstrAt (a ++ c :: b) c = some (cstr (c :: b)) := by
  simp [cstrAt, strchr_append a b c h]

/-- What lies behind the terminator of a buffer has no part in `cstrAt`. -/
theorem cstrAt_append_zero : ∀ (a t : List Nat) (c : Nat), c ≠ 0 →
    cstrAt (a ++ 0 :: t) c = cstrAt (a ++ [0]) c
  | [], t, c, hc => by simp [cstrAt, strchr, Ne.symm hc]
  | x :: a, t, c, hc => by
    have ih := cstrAt_append_zero a t c hc
    unfold cstrAt at ih ⊢
    by_cases hx : x = c
    · subst hx
      simp only [List.cons_append, strchr, if_true, Option.map_some', List.drop_zero]
      rw [show x :: (a ++ 0 :: t) = (x :: a) ++ 0 :: t from rfl,
        show x :: (a ++ [0]) = (x :: a) ++ 0 :: [] from rfl, cstr_append_zero, cstr_append_zero]
    · by_cases hx0 : x = 0
      · subst hx0
        simp [strchr, hx]
      · simp only [List.cons_append, strchr, hx, hx0, if_false, Option.map_map]
        exact ih

theorem parsePasv_append_zero (a t : List Nat) :
    parsePasv (a ++ 0 :: t) = parsePasv (a ++ [0]) := by
  unfold parsePasv
  rw [cstrAt_append_zero a t 40 (by decide)]

/-- The full effect of `sendFtpCommand` when a reply of at least three bytes is waiting. -/
theorem sendFtpCommand_eq (cmd param respCode reply : List Nat)
    (rest : List (Option (List Nat))) (w : World)
    (hw : w.replies = some reply :: rest) (hlen : 3 ≤ reply.length) :
    sendFtpCommand cmd param respCode w =
      (decide (cstr respCode = str "999") || decide (cstr (reply.take 3) = cstr respCode),
        readReply reply rest (printCommand cmd param w)) := by
  have hne : reply ≠ [] := by
    intro h; subst h; simp at hlen
  rw [sendFtpCommand_of_reply cmd param respCode reply rest w hw hne,
    cstr_respCodeRx_readReply _ _ _ hlen]

/-! ## Frame lemmas for a whole exchange -/

@[simp] theorem awaitReply_sdPathName (respCode : List Nat) (w : World) :
    (awaitReply respCode w).2.sdPathName = w.sdPathName := by
  unfold awaitReply
  split
  · rfl
  · rfl
  · rfl
  · dsimp only
    split
    · rfl
    · split <;> rfl

@[simp] theorem sendFtpCommand_sdPathName (cmd param respCode : List Nat) (w : World) :
    (sendFtpCommand cmd param respCode w).2.sdPathName = w.sdPathName := by
  simp [sendFtpCommand]

@[simp] theorem awaitReply_uploadInProgress (respCode : List Nat) (w : World) :
    (awaitReply respCode w).2.uploadInProgress = w.uploadInProgress := by
  unfold awaitReply
  split
  · rfl
  · rfl
  · rfl
  · dsimp only
    split
    · rfl
    · split <;> rfl

@[simp] theorem sendFtpCommand_uploadInProgress (cmd param respCode : List Nat) (w : World) :
    (sendFtpCommand cmd param respCode w).2.uploadInProgress = w.uploadInProgress := by
  simp [sendFtpCommand]

@[simp] theorem awaitReply_doPlayback (respCode : List Nat) (w : World) :
    (awaitReply respCode w).2.doPlayback = w.doPlayback := by
  unfold awaitReply
  split
  · rfl
  · rfl
  · rfl
  · dsimp only
    split
    · rfl
    · split <;> rfl

@[simp] theorem sendFtpCommand_doPlayback (cmd param respCode : List Nat) (w : World) :
    (sendFtpCommand cmd param respCode w).2.doPlayback = w.doPlayback := by
  simp [sendFtpCommand]

@[simp] theorem awaitReply_notifications (respCode : List Nat) (w : World) :
    (awaitReply respCode w).2.notifications = w.notifications := by
  unfold awaitReply
  split
  · rfl
  · rfl
  · rfl
  · dsimp only
    split
    · rfl
    · split <;> rfl

@[simp] theorem sendFtpCommand_notifications (cmd param respCode : List Nat) (w : World) :
    (sendFtpCommand cmd param respCode w).2.notifications = w.notifications := by
  simp [sendFtpCommand]

@[simp] theorem awaitReply_clientConnected (respCode : List Nat) (w : World) :
    (awaitReply respCode w).2.clientConnected = w.clientConnected := by
  unfold awaitReply
  split
  · rfl
  · rfl
  · rfl
  · dsimp only
    split
    · rfl
    · split <;> rfl

@[simp] theorem sendFtpCommand_clientConnected (cmd param respCode : List Nat) (w : World) :
    (sendFtpCommand cmd param respCode w).2.clientConnected = w.clientConnected := by
  simp [sendFtpCommand]

@[simp] theorem awaitReply_dclientConnected (respCode : List Nat) (w : World) :
    (awaitReply respCode w).2.dclientConnected = w.dclientConnected := by
  unfold awaitReply
  split
  · rfl
  · rfl
  · rfl
  · dsimp only
    split
    · rfl
    · split <;> rfl

@[simp] theorem sendFtpCommand_dclientConnected (cmd param respCode : List Nat) (w : World) :
    (sendFtpCommand cmd param respCode w).2.dclientConnected = w.dclientConnected := by
  simp [sendFtpCommand]

@[simp] theorem awaitReply_sdOpen (respCode : List Nat) (w : World) :
    (awaitReply respCode w).2.sdOpen = w.sdOpen := by
  unfold awaitReply
  split
  · rfl
  · rfl
  · rfl
  · dsimp only
    split
    · rfl
    · split <;> rfl

@[simp] theorem sendFtpCommand_sdOpen (cmd param respCode : List Nat) (w : World) :
    (sendFtpCommand cmd param respCode w).2.sdOpen = w.sdOpen := by
  simp [sendFtpCommand]

@[simp] theorem awaitReply_connectResults (respCode : List Nat) (w : World) :
    (awaitReply respCode w).2.connectResults = w.connectResults := by
  unfold awaitReply
  split
  · rfl
  · rfl
  · rfl
  · dsimp only
    split
    · rfl
    · split <;> rfl

@[simp] theorem sendFtpCommand_connectResults (cmd param respCode : List Nat) (w : World) :
    (sendFtpCommand cmd param respCode w).2.connectResults = w.connectResults := by
  simp [sendFtpCommand]

@[simp] theorem awaitReply_dconnectResults (respCode : List Nat) (w : World) :
    (awaitReply respCode w).2.dconnectResults = w.dconnectResults := by
  unfold awaitReply
  split
  · rfl
  · rfl
  · rfl
  · dsimp only
    split
    · rfl
    · split <;> rfl

@[simp] theorem sendFtpCommand_dconnectResults (cmd param respCode : List Nat) (w : World) :
    (sendFtpCommand cmd param respCode w).2.dconnectResults = w.dconnectResults := by
  simp [sendFtpCommand]

@[simp] theorem awaitReply_writeResults (respCode : List Nat) (w : World) :
    (awaitReply respCode w).2.writeResults = w.writeResults := by
  unfold awaitReply
  split
  · rfl
  · rfl
  · rfl
  · dsimp only
    split
    · rfl
    · split <;> rfl

@[simp] theorem sendFtpCommand_writeResults (cmd param respCode : List Nat) (w : World) :
    (sendFtpCommand cmd param respCode w).2.writeResults = w.writeResults := by
  simp [sendFtpCommand]

@[simp] theorem awaitReply_dconnects (respCode : List Nat) (w : World) :
    (awaitReply respCode w).2.dconnects = w.dconnects := by
  unfold awaitReply
  split
  · rfl
  · rfl
  · rfl
  · dsimp only
    split
    · rfl
    · split <;> rfl

@[simp] theorem sendFtpCommand_dconnects (cmd param respCode : List Nat) (w : World) :
    (sendFtpCommand cmd param respCode w).2.dconnects = w.dconnects := by
  simp [sendFtpCommand]

@[simp] theorem awaitReply_dataOut (respCode : List Nat) (w : World) :
    (awaitReply respCode w).2.dataOut = w.dataOut := by
  unfold awaitReply
  split
  · rfl
  · rfl
  · rfl
  · dsimp only
    split
    · rfl
    · split <;> rfl

@[simp] theorem sendFtpCommand_dataOut (cmd param respCode : List Nat) (w : World) :
    (sendFtpCommand cmd param respCode w).2.dataOut = w.dataOut := by
  simp [sendFtpCommand]

@[simp] theorem awaitReply_progress (respCode : List Nat) (w : World) :
    (awaitReply respCode w).2.progress = w.progress := by
  unfold awaitReply
  split
  · rfl
  · rfl
  · rfl
  · dsimp only
    split
    · rfl
    · split <;> rfl

@[simp] theorem sendFtpCommand_progress (cmd param respCode : List Nat) (w : World) :
    (sendFtpCommand cmd param respCode w).2.progress = w.progress := by
  simp [sendFtpCommand]

@[simp] theorem awaitReply_calls (respCode : List Nat) (w : World) :
    (awaitReply respCode w).2.calls = w.calls := by
  unfold awaitReply
  split
  · rfl
  · rfl
  · rfl
  · dsimp only
    split
    · rfl
    · split <;> rfl

@[simp] theorem sendFtpCommand_calls (cmd param respCode : List Nat) (w : World) :
    (sendFtpCommand cmd param respCode w).2.calls = w.calls := by
  simp [sendFtpCommand]

/-! ## Directory resolver lemmas -/

theorem printCommand_congr (cmd a b : List Nat) (w : World) (h : cstr a = cstr b) :
    printCommand cmd a w = printCommand cmd b w := by
  simp [printCommand, h]

theorem sendFtpCommand_congr (cmd a b respCode : List Nat) (w : World) (h : cstr a = cstr b) :
    sendFtpCommand cmd a respCode w = sendFtpCommand cmd b respCode w := by
  simp [sendFtpCommand, printCommand_congr cmd a b w h]

/-- The function `createFtpFolder` only looks at the C string content of its argument. -/
theorem createFtpFolder_congr (a b : List Nat) (w : World) (h : cstr a = cstr b) :
    createFtpFolder a w = createFtpFolder b w := by
  unfold createFtpFolder
  simp only [h, sendFtpCommand_congr _ a b _ _ h]

@[simp] theorem createFtpFolder_calls (a : List Nat) (w : World) :
    (createFtpFolder a w).2.calls = w.calls ++ [Call.createFtpFolder (cstr a)] := by
  unfold createFtpFolder
  dsimp only
  split
  · split
    · simp
    · split <;> simp
  · simp

theorem strchr_none_of_not_mem : ∀ (a t : List Nat) (c : Nat), c ≠ 0 → (∀ x ∈ a, x ≠ c) →
    strchr (a ++ 0 :: t) c = none
  | [], t, c, hc, _ => by simp [strchr, Ne.symm hc]
  | x :: a, t, c, hc, h => by
    have hx : x ≠ c := h x (by simp)
    have ha : ∀ y ∈ a, y ≠ c := fun y hy => h y (by simp [hy])
    by_cases hx0 : x = 0
    · subst hx0; simp [strchr, hx]
    · simp [strchr, hx, hx0, strchr_none_of_not_mem a t c hc ha]

theorem poke_append_cons (a : List Nat) (x v : Nat) (t : List Nat) :
    poke (a ++ x :: t) a.length v = a ++ v :: t := by
  simp [poke]

/-- The loop of `getFolderName` standing just before `s1/s2/.../sN/name`: it does what
`ensurePath` does on the segments. -/
theorem getFolderLoop_joinPath : ∀ (segs : List (List Nat)) (fuel : Nat) (pre : List Nat) (x : Nat)
    (name t : List Nat) (w : World),
    (∀ seg ∈ segs, IsSegment seg) → IsSegment name → segs.length < fuel →
    getFolderLoop fuel (pre ++ x :: (joinPath segs name ++ 0 :: t)) pre.length (pre.length + 1) w =
      some (ensurePath segs w)
  | [], fuel, pre, x, name, t, w, _, hname, hfuel => by
    obtain ⟨f, rfl⟩ : ∃ f, fuel = f + 1 := ⟨fuel - 1, by simp at hfuel; omega⟩
    have hdrop : (pre ++ x :: (name ++ 0 :: t)).drop (pre.length + 1) = name ++ 0 :: t := by
      rw [show pre ++ x :: (name ++ 0 :: t) = (pre ++ [x]) ++ (name ++ 0 :: t) by simp]
      exact List.drop_left' (by simp)
    simp only [getFolderLoop, joinPath, hdrop,
      strchr_none_of_not_mem name t 47 (by decide) (fun c hc => (hname c hc).1), ensurePath]
  | seg :: more, fuel, pre, x, name, t, w, hsegs, hname, hfuel => by
    obtain ⟨f, rfl⟩ : ∃ f, fuel = f + 1 := ⟨fuel - 1, by simp at hfuel; omega⟩
    have hseg : IsSegment seg := hsegs seg (by simp)
    have hmore : ∀ s ∈ more, IsSegment s := fun s hs => hsegs s (by simp [hs])
    have hdrop : (pre ++ x :: (joinPath (seg :: more) name ++ 0 :: t)).drop (pre.length + 1) =
        seg ++ 47 :: (joinPath more name ++ 0 :: t) := by
      rw [show pre ++ x :: (joinPath (seg :: more) name ++ 0 :: t) =
        (pre ++ [x]) ++ (seg ++ 47 :: (joinPath more name ++ 0 :: t)) by simp [joinPath]]
      exact List.drop_left' (by simp)
    have hpoke : poke (pre ++ x :: (joinPath (seg :: more) name ++ 0 :: t))
        (pre.length + 1 + seg.length) 0 =
        (pre ++ x :: seg) ++ 0 :: (joinPath more name ++ 0 :: t) := by
      rw [show pre ++ x :: (joinPath (seg :: more) name ++ 0 :: t) =
        (pre ++ x :: seg) ++ 47 :: (joinPath more name ++ 0 :: t) by simp [joinPath]]
      rw [show pre.length + 1 + seg.length = (pre ++ x :: seg).length by simp; omega]
      exact poke_append_cons _ _ _ _
    have hpos : ((pre ++ x :: seg) ++ 0 :: (joinPath more name ++ 0 :: t)).drop (pre.length + 1) =
        seg ++ 0 :: (joinPath more name ++ 0 :: t) := by
      rw [show (pre ++ x :: seg) ++ 0 :: (joinPath more name ++ 0 :: t) =
        (pre ++ [x]) ++ (seg ++ 0 :: (joinPath more name ++ 0 :: t)) by simp]
      exact List.drop_left' (by simp)
    have hcs : cstr (seg ++ 0 :: (joinPath more name ++ 0 :: t)) = cstr seg := cstr_append_zero _ _
    have ih := getFolderLoop_joinPath more f (pre ++ x :: seg) 0 name t
    have hlen : (pre ++ x :: seg).length = pre.length + 1 + seg.length := by simp; omega
    rw [hlen] at ih
    simp only [getFolderLoop, hdrop, strchr_append seg _ 47 hseg, hpoke, hpos,
      createFtpFolder_congr _ seg w hcs, ensurePath]
    rcases hc : createFtpFolder seg w with ⟨ok, w1⟩
    cases ok
    · simp
    · simp only [Bool.not_true, Bool.false_eq_true, if_false]
      exact ih w1 hmore hname (by simp at hfuel; omega)

theorem joinPath_ne_zero : ∀ (segs : List (List Nat)) (name : List Nat),
    (∀ seg ∈ segs, IsSegment seg) → IsSegment name → ∀ c ∈ joinPath segs name, c ≠ 0
  | [], name, _, hname, c, hc => (hname c hc).2
  | seg :: more, name, hsegs, hname, c, hc => by
    simp only [joinPath, List.mem_append, List.mem_cons] at hc
    rcases hc with h | h | h
    · exact (hsegs seg (by simp) c h).2
    · omega
    · exact joinPath_ne_zero more name (fun s hs => hsegs s (by simp [hs])) hname c h

theorem length_le_joinPath : ∀ (segs : List (List Nat)) (name : List Nat),
    segs.length ≤ (joinPath segs name).length
  | [], _ => by simp
  | seg :: more, name => by
    have := length_le_joinPath more name
    simp [joinPath]; omega

/-- The calls `ensurePath` records: one per segment, in order, up to where it stopped. -/
theorem ensurePath_calls : ∀ (segs : List (List Nat)) (w : World),
    ∃ k, k ≤ segs.length ∧
      (ensurePath segs w).2.calls = w.calls ++ (segs.take k).map (fun s => Call.createFtpFolder (cstr s)) ∧
      ((ensurePath segs w).1 = true → k = segs.length)
  | [], w => ⟨0, by simp [ensurePath]⟩
  | seg :: more, w => by
    have hcalls := createFtpFolder_calls seg w
    unfold ensurePath
    rcases hc : createFtpFolder seg w with ⟨ok, w1⟩
    rw [hc] at hcalls
    cases ok
    · exact ⟨1, by simp, by simpa using hcalls, by simp⟩
    · obtain ⟨k, hk, hcl, htrue⟩ := ensurePath_calls more w1
      refine ⟨k + 1, by simp; omega, ?_, ?_⟩
      · simp only [hcl]
        simp at hcalls
        simp [hcalls]
      · intro h
        simp only [List.length_cons, add_left_inj]
        exact htrue h

/-! ## File transfer lemmas -/

theorem sendFtpCommand_ctrlOut (cmd param respCode : List Nat) (w : World) :
    (sendFtpCommand cmd param respCode w).2.ctrlOut = (printCommand cmd param w).ctrlOut := by
  unfold sendFtpCommand awaitReply
  split
  · rfl
  · rfl
  · rfl
  · dsimp only
    split
    · rfl
    · split <;> rfl

/-- What `openDataPort` leaves alone, and the one line it prints. -/
theorem openDataPort_frame (cfg : Config) (w w1 : World) (b : Bool)
    (h : openDataPort cfg w = some (b, w1)) :
    w1.dataOut = w.dataOut ∧ w1.writeResults = w.writeResults ∧ w1.calls = w.calls ∧
    w1.progress = w.progress ∧ w1.ctrlOut = w.ctrlOut ++ [str "PASV"] := by
  have hc : (sendFtpCommand (str "PASV") (str "") (str "227") w).2.ctrlOut =
      w.ctrlOut ++ [str "PASV"] := by
    rw [sendFtpCommand_ctrlOut]
    simp [printCommand, show strlen (str "PASV") = 4 from rfl, show cstr (str "PASV") = str "PASV" from rfl,
      show cstr (str "") = [] from rfl]
  have hd := sendFtpCommand_dataOut (str "PASV") (str "") (str "227") w
  have hwr := sendFtpCommand_writeResults (str "PASV") (str "") (str "227") w
  have hca := sendFtpCommand_calls (str "PASV") (str "") (str "227") w
  have hpr := sendFtpCommand_progress (str "PASV") (str "") (str "227") w
  unfold openDataPort at h
  rcases hs : sendFtpCommand (str "PASV") (str "") (str "227") w with ⟨ok, w0⟩
  rw [hs] at h hc hd hwr hca hpr
  dsimp only at h hc hd hwr hca hpr
  cases ok
  · simp only [Bool.not_false, if_true, Option.some.injEq, Prod.mk.injEq] at h
    obtain ⟨-, rfl⟩ := h
    exact ⟨hd, hwr, hca, hpr, hc⟩
  · simp only [Bool.not_true, Bool.false_eq_true, if_false] at h
    split at h
    · exact absurd h (by simp)
    · simp only [Option.some.injEq, Prod.mk.injEq] at h
      obtain ⟨-, rfl⟩ := h
      exact ⟨hd, hwr, hca, hpr, hc⟩
    · split at h <;>
      · simp only [Option.some.injEq, Prod.mk.injEq] at h
        obtain ⟨-, rfl⟩ := h
        exact ⟨hd, hwr, hca, hpr, hc⟩

/-- What the chunk loop leaves alone. -/
theorem storeLoop_frame (fileSize : Nat) : ∀ (reads : List (List Nat)) (wb pc : Nat) (w : World)
    (r : Bool × Nat × World), storeLoop fileSize reads wb pc w = some r →
    r.2.2.calls = w.calls ∧ r.2.2.ctrlOut = w.ctrlOut ∧ r.2.2.replies = w.replies ∧
    r.2.2.sdOpen = w.sdOpen
  | [], wb, pc, w, r, h => by
    simp only [storeLoop, Option.some.injEq] at h
    subst h; exact ⟨rfl, rfl, rfl, rfl⟩
  | chunk :: more, wb, pc, w, r, h => by
    unfold storeLoop at h
    split at h
    · simp only [Option.some.injEq] at h
      subst h; exact ⟨rfl, rfl, rfl, rfl⟩
    · dsimp only [dclientWrite] at h
      split at h
      · simp only [Option.some.injEq] at h
        subst h; exact ⟨rfl, rfl, rfl, rfl⟩
      · split at h
        · split at h
          · exact absurd h (by simp)
          · have ih := storeLoop_frame fileSize more _ _ _ r h
            exact ih
        · have ih := storeLoop_frame fileSize more _ _ _ r h
          exact ih

/-- The ways `ftpStoreFile` can return: a name that fails the extension check, a `STOR` that is
not answered with 150, a write that takes nothing, or a completed transfer. -/
theorem ftpStoreFile_cases (cfg : Config) (fh : Entry) (w : World) (b : Bool) (w' : World)
    (h : ftpStoreFile cfg fh w = some (b, w')) :
    let w0 := { w with calls := w.calls ++ [Call.ftpStoreFile (cstr fh.name)] }
    (strstrFound (cstr fh.name) (cstr cfg.FILE_EXT) = false ∧ b = false ∧ w' = w0) ∨
    (strstrFound (cstr fh.name) (cstr cfg.FILE_EXT) = true ∧
      ∃ b1 w1, openDataPort cfg w0 = some (b1, w1) ∧
        ((b = false ∧ (sendFtpCommand (str "STOR ")
            (if fh.isAVI then cfg.changeExtension fh.name else cstr fh.name) (str "150") w1) =
            (false, w')) ∨
        ∃ w2, (sendFtpCommand (str "STOR ")
            (if fh.isAVI then cfg.changeExtension fh.name else cstr fh.name) (str "150") w1) =
            (true, w2) ∧
          ((b = false ∧ ∃ wb, storeLoop fh.size fh.reads 0 0 w2 = some (false, wb, w')) ∨
           (b = true ∧ ∃ wb w3, storeLoop fh.size fh.reads 0 0 w2 = some (true, wb, w3) ∧
              w' = (sendFtpCommand (str "") (str "") (str "226")
                { w3 with dclientConnected := false }).2)))) := by
  intro w0
  unfold ftpStoreFile at h
  dsimp only at h
  by_cases hext : strstrFound (cstr fh.name) (cstr cfg.FILE_EXT) = true
  · right
    refine ⟨hext, ?_⟩
    simp only [hext, Bool.not_true, Bool.false_eq_true, if_false] at h
    by_cases hfit : fh.isAVI = false ∧ cfg.FILE_NAME_LEN ≤ strlen fh.name
    · rw [if_pos hfit] at h
      exact absurd h (by simp)
    rw [if_neg hfit] at h
    rcases hod : openDataPort cfg w0 with _ | ⟨b1, w1⟩
    · rw [show openDataPort cfg { w with calls := w.calls ++ [Call.ftpStoreFile (cstr fh.name)] } =
        none from hod] at h
      exact absurd h (by simp)
    · rw [show openDataPort cfg { w with calls := w.calls ++ [Call.ftpStoreFile (cstr fh.name)] } =
        some (b1, w1) from hod] at h
      refine ⟨b1, w1, rfl, ?_⟩
      dsimp only at h
      rcases hst : sendFtpCommand (str "STOR ")
        (if fh.isAVI then cfg.changeExtension fh.name else cstr fh.name) (str "150") w1 with ⟨ok, w2⟩
      rw [hst] at h
      cases ok
      · left
        simp only [Bool.not_false, if_true, Option.some.injEq, Prod.mk.injEq] at h
        exact ⟨h.1.symm, by rw [h.2]⟩
      · right
        refine ⟨w2, rfl, ?_⟩
        simp only [Bool.not_true, Bool.false_eq_true, if_false] at h
        rcases hl : storeLoop fh.size fh.reads 0 0 w2 with _ | ⟨ok2, wb, w3⟩
        · rw [hl] at h; exact absurd h (by simp)
        · rw [hl] at h
          cases ok2
          · left
            simp only [Option.some.injEq, Prod.mk.injEq] at h
            exact ⟨h.1.symm, wb, by rw [h.2]⟩
          · right
            simp only [Option.some.injEq, Prod.mk.injEq] at h
            exact ⟨h.1.symm, wb, w3, rfl, h.2.symm⟩
  · left
    have hext' : strstrFound (cstr fh.name) (cstr cfg.FILE_EXT) = false := by
      simpa using hext
    simp only [hext', Bool.not_false, if_true, Option.some.injEq, Prod.mk.injEq] at h
    exact ⟨hext', h.1.symm, h.2.symm⟩

theorem ftpStoreFile_calls (cfg : Config) (fh : Entry) (w : World) (b : Bool) (w' : World)
    (h : ftpStoreFile cfg fh w = some (b, w')) :
    w'.calls = w.calls ++ [Call.ftpStoreFile (cstr fh.name)] := by
  rcases ftpStoreFile_cases cfg fh w b w' h with ⟨-, -, rfl⟩ | ⟨-, b1, w1, hod, hrest⟩
  · rfl
  · have h1 := (openDataPort_frame cfg _ w1 b1 hod).2.2.1
    rcases hrest with ⟨-, hst⟩ | ⟨w2, hst, hrest⟩
    · have := sendFtpCommand_calls (str "STOR ")
        (if fh.isAVI then cfg.changeExtension fh.name else cstr fh.name) (str "150") w1
      rw [hst] at this
      rw [this, h1]
    · have h2 := sendFtpCommand_calls (str "STOR ")
        (if fh.isAVI then cfg.changeExtension fh.name else cstr fh.name) (str "150") w1
      rw [hst] at h2
      rcases hrest with ⟨-, wb, hl⟩ | ⟨-, wb, w3, hl, rfl⟩
      · have := (storeLoop_frame _ _ _ _ _ _ hl).1
        rw [this, h2, h1]
      · have := (storeLoop_frame _ _ _ _ _ _ hl).1
        rw [sendFtpCommand_calls]
        dsimp only at this ⊢
        rw [this, h2, h1]

theorem uploadChildren_append (cfg : Config) : ∀ (pre more : List Entry) (w w1 : World),
    storeAll cfg pre w = some w1 → uploadChildren cfg (pre ++ more) w = uploadChildren cfg more w1
  | [], more, w, w1, h => by
    simp only [storeAll, Option.some.injEq] at h
    subst h; rfl
  | fh :: pre, more, w, w1, h => by
    unfold storeAll at h
    rcases hs : ftpStoreFile cfg fh w with _ | ⟨b, w0⟩
    · rw [hs] at h; exact absurd h (by simp)
    · cases b
      · rw [hs] at h; exact absurd h (by simp)
      · rw [hs] at h
        simp only [List.cons_append, uploadChildren, hs]
        exact uploadChildren_append cfg pre more w0 w1 h

theorem storeAll_calls (cfg : Config) : ∀ (pre : List Entry) (w w1 : World),
    storeAll cfg pre w = some w1 →
    w1.calls = w.calls ++ pre.map (fun e => Call.ftpStoreFile (cstr e.name))
  | [], w, w1, h => by
    simp only [storeAll, Option.some.injEq] at h
    subst h; simp
  | fh :: pre, w, w1, h => by
    unfold storeAll at h
    rcases hs : ftpStoreFile cfg fh w with _ | ⟨b, w0⟩
    · rw [hs] at h; exact absurd h (by simp)
    · cases b
      · rw [hs] at h; exact absurd h (by simp)
      · rw [hs] at h
        rw [storeAll_calls cfg pre w0 w1 h, ftpStoreFile_calls cfg fh w true w0 hs]
        simp

/-- When no write of the loop is partial and the loop reports success, every chunk went out whole
and the counter advanced by the total. -/
theorem storeLoop_whole (fileSize : Nat) : ∀ (reads : List (List Nat)) (wb pc : Nat) (w : World)
    (wb' : Nat) (w' : World),
    storeLoop fileSize reads wb pc w = some (true, wb', w') →
    wb < 4294967296 →
    (∀ c ∈ reads, c ≠ []) →
    (∀ p ∈ List.zip reads w.writeResults, p.2 = 0 ∨ p.1.length ≤ p.2) →
    w'.dataOut = w.dataOut ++ reads.flatten ∧ wb' = (wb + reads.flatten.length) % 4294967296
  | [], wb, pc, w, wb', w', h, hwb, _, _ => by
    simp only [storeLoop, Option.some.injEq, Prod.mk.injEq, true_and] at h
    obtain ⟨rfl, rfl⟩ := h
    simp
    omega
  | chunk :: more, wb, pc, w, wb', w', h, hwb, hne, hz => by
    have hc : chunk.length ≠ 0 := by
      have := hne chunk (by simp)
      simpa using this
    have hmore : ∀ c ∈ more, c ≠ [] := fun c hc => hne c (by simp [hc])
    unfold storeLoop at h
    simp only [hc, if_false, dclientWrite] at h
    rcases hws : w.writeResults with _ | ⟨n, ws⟩
    · simp [hws] at h
    · rw [hws] at hz h
      have hn := hz (chunk, n) (by simp)
      have hzm : ∀ p ∈ List.zip more ws, p.2 = 0 ∨ p.1.length ≤ p.2 :=
        fun p hp => hz p (by simp [hp])
      simp only [List.headD_cons, List.tail_cons] at h
      rcases hn with hn | hn
      · simp only at hn
        subst hn
        simp at h
      · simp only at hn
        have hmin : min n chunk.length = chunk.length := Nat.min_eq_right hn
        simp only [hmin, hc, if_false, List.take_length] at h
        have key : ∀ w1 : World, w1.dataOut = w.dataOut ++ chunk → w1.writeResults = ws →
            storeLoop fileSize more ((wb + chunk.length) % 4294967296) ((pc + 1) % 4294967296) w1 =
              some (true, wb', w') →
            w'.dataOut = w.dataOut ++ (chunk :: more).flatten ∧
              wb' = (wb + (chunk :: more).flatten.length) % 4294967296 := by
          intro w1 hd hw hl
          obtain ⟨h1, h2⟩ := storeLoop_whole fileSize more _ _ w1 wb' w' hl
            (Nat.mod_lt _ (by decide)) hmore (by rw [hw]; exact hzm)
          refine ⟨by rw [h1, hd]; simp, ?_⟩
          rw [h2]
          simp only [List.flatten_cons, List.length_append]
          omega
        split at h
        · split at h
          · exact absurd h (by simp)
          · exact key _ rfl rfl h
        · exact key _ rfl rfl h

/-! ## Definedness of a whole round -/

theorem Later.refl (w : World) : Later w w := ⟨List.suffix_refl _, rfl⟩

theorem Later.trans {w2 w1 w : World} (h2 : Later w2 w1) (h1 : Later w1 w) : Later w2 w :=
  ⟨h2.1.trans h1.1, h2.2.trans h1.2⟩

theorem awaitReply_replies_suffix (respCode : List Nat) (w : World) :
    (awaitReply respCode w).2.replies <:+ w.replies := by
  unfold awaitReply
  split
  · exact List.suffix_refl _
  · rename_i rest heq
    rw [heq]; exact List.suffix_cons _ _
  · rename_i rest heq
    rw [heq]; exact List.suffix_cons _ _
  · rename_i b bs rest heq
    rw [heq]
    dsimp only
    split
    · exact List.suffix_cons _ _
    · split <;> exact List.suffix_cons _ _

theorem sendFtpCommand_later (cmd param respCode : List Nat) (w : World) :
    Later (sendFtpCommand cmd param respCode w).2 w := by
  refine ⟨?_, sendFtpCommand_sdOpen _ _ _ _⟩
  have := awaitReply_replies_suffix respCode (printCommand cmd param w)
  rwa [printCommand_replies] at this

theorem later_send {w1 w : World} (cmd param respCode : List Nat) (h : Later w1 w) :
    Later (sendFtpCommand cmd param respCode w1).2 w :=
  (sendFtpCommand_later cmd param respCode w1).trans h

theorem ftpConnect_eq (cfg : Config) (w : World) :
    ftpConnect cfg w =
      if !(w.connectResults.headD false) then
        (false, { w with connectResults := w.connectResults.tail,
                         clientConnected := w.connectResults.headD false })
      else if !(sendFtpCommand (str "") (str "") (str "220")
          { w with connectResults := w.connectResults.tail,
                   clientConnected := w.connectResults.headD false }).1 then
        (false, (sendFtpCommand (str "") (str "") (str "220")
          { w with connectResults := w.connectResults.tail,
                   clientConnected := w.connectResults.headD false }).2)
      else if !(sendFtpCommand (str "USER ") cfg.ftp_user (str "331")
          (sendFtpCommand (str "") (str "") (str "220")
            { w with connectResults := w.connectResults.tail,
                     clientConnected := w.connectResults.headD false }).2).1 then
        (false, (sendFtpCommand (str "USER ") cfg.ftp_user (str "331")
          (sendFtpCommand (str "") (str "") (str "220")
            { w with connectResults := w.connectResults.tail,
                     clientConnected := w.connectResults.headD false }).2).2)
      else if !(sendFtpCommand (str "PASS ") cfg.ftp_pass (str "230")
          (sendFtpCommand (str "USER ") cfg.ftp_user (str "331")
            (sendFtpCommand (str "") (str "") (str "220")
              { w with connectResults := w.connectResults.tail,
                       clientConnected := w.connectResults.headD false }).2).2).1 then
        (false, (sendFtpCommand (str "PASS ") cfg.ftp_pass (str "230")
          (sendFtpCommand (str "USER ") cfg.ftp_user (str "331")
            (sendFtpCommand (str "") (str "") (str "220")
              { w with connectResults := w.connectResults.tail,
                       clientConnected := w.connectResults.headD false }).2).2).2)
      else if !(sendFtpCommand (str "CWD ") cfg.ftp_wd (str "250")
          (sendFtpCommand (str "PASS ") cfg.ftp_pass (str "230")
            (sendFtpCommand (str "USER ") cfg.ftp_user (str "331")
              (sendFtpCommand (str "") (str "") (str "220")
                { w with connectResults := w.connectResults.tail,
                         clientConnected := w.connectResults.headD false }).2).2).2).1 then
        (false, (sendFtpCommand (str "CWD ") cfg.ftp_wd (str "250")
          (sendFtpCommand (str "PASS ") cfg.ftp_pass (str "230")
            (sendFtpCommand (str "USER ") cfg.ftp_user (str "331")
              (sendFtpCommand (str "") (str "") (str "220")
                { w with connectResults := w.connectResults.tail,
                         clientConnected := w.connectResults.headD false }).2).2).2).2)
      else
        (!(!(sendFtpCommand (str "Type I") (str "") (str "200")
          (sendFtpCommand (str "CWD ") cfg.ftp_wd (str "250")
            (sendFtpCommand (str "PASS ") cfg.ftp_pass (str "230")
              (sendFtpCommand (str "USER ") cfg.ftp_user (str "331")
                (sendFtpCommand (str "") (str "") (str "220")
                  { w with connectResults := w.connectResults.tail,
                           clientConnected := w.connectResults.headD false }).2).2).2).2).1),
          (sendFtpCommand (str "Type I") (str "") (str "200")
            (sendFtpCommand (str "CWD ") cfg.ftp_wd (str "250")
              (sendFtpCommand (str "PASS ") cfg.ftp_pass (str "230")
                (sendFtpCommand (str "USER ") cfg.ftp_user (str "331")
                  (sendFtpCommand (str "") (str "") (str "220")
                    { w with connectResults := w.connectResults.tail,
                             clientConnected := w.connectResults.headD false }).2).2).2).2).2) := by
  unfold ftpConnect
  dsimp only
  split
  · rfl
  · split
    · rfl
    · split
      · rfl
      · split
        · rfl
        · split
          · rfl
          · split <;> simp_all

theorem ftpConnect_later (cfg : Config) (w : World) : Later (ftpConnect cfg w).2 w := by
  have base : Later { w with
      connectResults := w.connectResults.tail
      clientConnected := w.connectResults.headD false } w := ⟨List.suffix_refl _, rfl⟩
  rw [ftpConnect_eq]
  split_ifs <;> dsimp only <;> (repeat apply later_send) <;> exact base

theorem createFtpFolder_later (folderName : List Nat) (w : World) :
    Later (createFtpFolder folderName w).2 w := by
  have base : Later { w with calls := w.calls ++ [Call.createFtpFolder (cstr folderName)] } w :=
    ⟨List.suffix_refl _, rfl⟩
  have h1 := later_send (str "CWD ") folderName (str "999") base
  unfold createFtpFolder
  dsimp only
  split
  · have h2 := later_send (str "MKD ") folderName (str "257") h1
    split
    · exact h2
    · have h3 := later_send (str "CWD ") folderName (str "250") h2
      split <;> exact h3
  · exact h1

theorem cstr_eq_227 (l : List Nat) (hlen : l.length = 3) (h : cstr l = str "227") :
    l = str "227" := by
  match l, hlen with
  | [a, b, c], _ =>
    have h227 : str "227" = [50, 50, 55] := by decide
    rw [h227] at h ⊢
    unfold cstr at h
    split at h
    · simp at h
    · unfold cstr at h
      split at h
      · simp at h
      · unfold cstr at h
        split at h
        · simp at h
        · simp only [cstr, List.cons.injEq, and_true] at h
          obtain ⟨rfl, rfl, rfl⟩ := h
          rfl

theorem strchr_isSome_of_mem : ∀ (buf : List Nat) (c : Nat), c ∈ cstr buf →
    ∃ off, strchr buf c = some off
  | [], c, h => by simp [cstr] at h
  | x :: buf, c, h => by
    unfold strchr
    by_cases hx : x = c
    · exact ⟨0, by simp [hx]⟩
    · by_cases hx0 : x = 0
      · simp [cstr, hx0] at h
      · simp only [cstr, hx0, if_false, List.mem_cons] at h
        rcases h with h | h
        · exact absurd h.symm hx
        · obtain ⟨off, hoff⟩ := strchr_isSome_of_mem buf c h
          exact ⟨off + 1, by simp [hx, hx0, hoff]⟩

/-- With a well-formed reply script `openDataPort` has a result. -/
theorem openDataPort_defined (cfg : Config) (w : World) (hrep : ∀ r ∈ w.replies, ReplyOK r) :
    ∃ r, openDataPort cfg w = some r := by
  unfold openDataPort
  rcases hw : w.replies with _ | ⟨r, rest⟩
  · have : sendFtpCommand (str "PASV") (str "") (str "227") w =
        (false, printCommand (str "PASV") (str "") w) := by
      simp [sendFtpCommand, awaitReply, hw]
    simp [this]
  · rcases r with _ | bytes
    · have : sendFtpCommand (str "PASV") (str "") (str "227") w =
          (false, { printCommand (str "PASV") (str "") w with replies := rest }) := by
        simp [sendFtpCommand, awaitReply, hw]
      simp [this]
    · obtain ⟨hlen, hparen⟩ := hrep (some bytes) (by simp [hw]) bytes rfl
      rw [sendFtpCommand_eq _ _ _ bytes rest w hw hlen]
      by_cases hcode : cstr (bytes.take 3) = cstr (str "227")
      · have h227 : bytes.take 3 = str "227" :=
          cstr_eq_227 _ (by simp [hlen]) (by rw [hcode]; rfl)
        have hdef := hparen h227
        have hbuf : (readReply bytes rest (printCommand (str "PASV") (str "") w)).rspBuf =
            (bytes.drop 3).take 255 ++ 0 ::
              ((printCommand (str "PASV") (str "") w).rspBuf.drop
                ((bytes.drop 3).take 255).length).drop 1 := by
          simp only [readReply, poke_writeBuf]
        simp only [hcode, decide_True, Bool.or_true, Bool.not_true, Bool.false_eq_true, if_false,
          hbuf, parsePasv_append_zero]
        rcases hp : parsePasv ((bytes.drop 3).take 255 ++ [0]) with _ | _ | port
        · exact absurd hp hdef
        · exact ⟨_, rfl⟩
        · dsimp only
          split_ifs <;> exact ⟨_, rfl⟩
      · simp [hcode, show ¬ cstr (str "227") = str "999" by decide]

theorem openDataPort_later (cfg : Config) (w w1 : World) (b : Bool)
    (h : openDataPort cfg w = some (b, w1)) : Later w1 w := by
  have hl := sendFtpCommand_later (str "PASV") (str "") (str "227") w
  unfold openDataPort at h
  rcases hs : sendFtpCommand (str "PASV") (str "") (str "227") w with ⟨ok, w0⟩
  rw [hs] at h hl
  dsimp only at h hl
  cases ok
  · simp only [Bool.not_false, if_true, Option.some.injEq, Prod.mk.injEq] at h
    obtain ⟨-, rfl⟩ := h
    exact hl
  · simp only [Bool.not_true, Bool.false_eq_true, if_false] at h
    split at h
    · exact absurd h (by simp)
    · simp only [Option.some.injEq, Prod.mk.injEq] at h
      obtain ⟨-, rfl⟩ := h
      exact hl
    · split at h <;>
      · simp only [Option.some.injEq, Prod.mk.injEq] at h
        obtain ⟨-, rfl⟩ := h
        exact hl

/-- The chunk loop has a result unless it divides by a file size of zero. -/
theorem storeLoop_defined (fileSize : Nat) : ∀ (reads : List (List Nat)) (wb pc : Nat) (w : World),
    (fileSize = 0 → pc + reads.length < 50) → ∃ r, storeLoop fileSize reads wb pc w = some r
  | [], wb, pc, w, _ => ⟨_, rfl⟩
  | chunk :: more, wb, pc, w, h => by
    unfold storeLoop
    split
    · exact ⟨_, rfl⟩
    · dsimp only
      split
      · exact ⟨_, rfl⟩
      · split
        · rename_i h50
          split
          · rename_i h0
            have := h h0
            simp only [List.length_cons] at this
            have hlt : (pc + 1) % 4294967296 = pc + 1 := Nat.mod_eq_of_lt (by omega)
            rw [hlt] at h50
            omega
          · exact storeLoop_defined fileSize more _ _ _ (fun h0 => by
              rename_i hne
              exact absurd h0 hne)
        · exact storeLoop_defined fileSize more _ _ _ (fun h0 => by
            have := h h0
            simp only [List.length_cons] at this
            have hlt : (pc + 1) % 4294967296 = pc + 1 := Nat.mod_eq_of_lt (by omega)
            rw [hlt]
            omega)

theorem repliesOK_of_later {w1 w : World} (h : Later w1 w) (hrep : ∀ r ∈ w.replies, ReplyOK r) :
    ∀ r ∈ w1.replies, ReplyOK r :=
  fun r hr => hrep r (h.1.subset hr)

theorem ftpStoreFile_later (cfg : Config) (fh : Entry) (w : World) (b : Bool) (w' : World)
    (h : ftpStoreFile cfg fh w = some (b, w')) : Later w' w := by
  have base : Later { w with calls := w.calls ++ [Call.ftpStoreFile (cstr fh.name)] } w :=
    ⟨List.suffix_refl _, rfl⟩
  rcases ftpStoreFile_cases cfg fh w b w' h with ⟨-, -, rfl⟩ | ⟨-, b1, w1, hod, hrest⟩
  · exact base
  · have h1 : Later w1 w := (openDataPort_later cfg _ w1 b1 hod).trans base
    have h2 := later_send (str "STOR ")
      (if fh.isAVI then cfg.changeExtension fh.name else cstr fh.name) (str "150") h1
    rcases hrest with ⟨-, hst⟩ | ⟨w2, hst, hrest⟩
    · rw [hst] at h2; exact h2
    · rw [hst] at h2
      rcases hrest with ⟨-, wb, hl⟩ | ⟨-, wb, w3, hl, rfl⟩
      · obtain ⟨-, -, hr, hs⟩ := storeLoop_frame _ _ _ _ _ _ hl
        exact ⟨by rw [hr]; exact h2.1, by rw [hs]; exact h2.2⟩
      · obtain ⟨-, -, hr, hs⟩ := storeLoop_frame _ _ _ _ _ _ hl
        have h3 : Later { w3 with dclientConnected := false } w :=
          ⟨by dsimp only at hr ⊢; rw [hr]; exact h2.1, by dsimp only at hs ⊢; rw [hs]; exact h2.2⟩
        exact later_send _ _ _ h3

/-- With a well-formed reply script and a sound size `ftpStoreFile` has a result. -/
theorem ftpStoreFile_defined (cfg : Config) (fh : Entry) (w : World)
    (hrep : ∀ r ∈ w.replies, ReplyOK r) (hfh : EntryOK cfg fh) :
    ∃ r, ftpStoreFile cfg fh w = some r := by
  obtain ⟨hsize, hname⟩ := hfh
  have hfit : ¬ (fh.isAVI = false ∧ cfg.FILE_NAME_LEN ≤ strlen fh.name) := by
    intro h; omega
  unfold ftpStoreFile
  dsimp only
  generalize (if fh.isAVI = true then cfg.changeExtension fh.name else cstr fh.name) = saveName
  split
  · exact ⟨_, rfl⟩
  · obtain ⟨⟨b1, w1⟩, hod⟩ := openDataPort_defined cfg
      { w with calls := w.calls ++ [Call.ftpStoreFile (cstr fh.name)] } hrep
    rw [hod]
    dsimp only
    rcases hst : sendFtpCommand (str "STOR ") saveName (str "150") w1 with ⟨ok, w2⟩
    cases ok
    · exact ⟨(false, w2), by simp⟩
    · obtain ⟨⟨b2, wb, w3⟩, hl⟩ := storeLoop_defined fh.size fh.reads 0 0 w2
        (fun h0 => by have := hsize h0; omega)
      simp only [Bool.not_true, Bool.false_eq_true, if_false, hl]
      cases b2 <;> exact ⟨_, rfl⟩

theorem uploadChildren_defined (cfg : Config) : ∀ (children : List Entry) (w : World),
    (∀ r ∈ w.replies, ReplyOK r) → (∀ e ∈ children, EntryOK cfg e) →
    ∃ w', uploadChildren cfg children w = some w'
  | [], w, _, _ => ⟨w, rfl⟩
  | fh :: more, w, hrep, hsize => by
    obtain ⟨⟨b, w1⟩, hs⟩ := ftpStoreFile_defined cfg fh w hrep (hsize fh (by simp))
    unfold uploadChildren
    rw [hs]
    cases b
    · exact ⟨w1, rfl⟩
    · exact uploadChildren_defined cfg more w1
        (repliesOK_of_later (ftpStoreFile_later cfg fh w true w1 hs) hrep)
        (fun e he => hsize e (by simp [he]))

theorem strchr_lt : ∀ (buf : List Nat) (c off : Nat), strchr buf c = some off → off < buf.length
  | [], c, off, h => by simp [strchr] at h
  | x :: buf, c, off, h => by
    unfold strchr at h
    split at h
    · simp only [Option.some.injEq] at h
      subst h; simp
    · split at h
      · exact absurd h (by simp)
      · rcases hs : strchr buf c with _ | o
        · simp [hs] at h
        · simp only [hs, Option.map_some', Option.some.injEq] at h
          have := strchr_lt buf c o hs
          subst h
          simp only [List.length_cons]
          omega

theorem length_poke (buf : List Nat) (i v : Nat) (h : i < buf.length) :
    (poke buf i v).length = buf.length := by
  simp [poke]; omega

/-- The loop of `getFolderName` never runs out of rounds when started with the buffer length. -/
theorem getFolderLoop_defined : ∀ (fuel : Nat) (buf : List Nat) (p pos : Nat) (w : World),
    p < buf.length → buf.length ≤ fuel + p →
    ∃ r, getFolderLoop fuel buf p pos w = some r ∧ Later r.2 w
  | 0, buf, p, pos, w, h1, h2 => by omega
  | fuel + 1, buf, p, pos, w, h1, h2 => by
    unfold getFolderLoop
    rcases hs : strchr (buf.drop (p + 1)) 47 with _ | off
    · exact ⟨_, rfl, Later.refl w⟩
    · have hoff := strchr_lt _ _ _ hs
      simp only [List.length_drop] at hoff
      have hq : p + 1 + off < buf.length := by omega
      dsimp only
      rcases hc : createFtpFolder ((poke buf (p + 1 + off) 0).drop pos) w with ⟨ok, w1⟩
      have hl : Later w1 w := by
        have := createFtpFolder_later ((poke buf (p + 1 + off) 0).drop pos) w
        rwa [hc] at this
      cases ok
      · exact ⟨_, rfl, hl⟩
      · obtain ⟨r, hr, hlr⟩ := getFolderLoop_defined fuel (poke buf (p + 1 + off) 0)
          (p + 1 + off) (p + 1 + off + 1) w1
          (by rw [length_poke _ _ _ hq]; exact hq) (by rw [length_poke _ _ _ hq]; omega)
        exact ⟨r, by simpa using hr, hlr.trans hl⟩

theorem getFolderName_defined (cfg : Config) (folderPath : List Nat) (w : World)
    (h : 47 ∈ cstr folderPath) (hfit : strlen folderPath < cfg.FILE_NAME_LEN) :
    ∃ r, getFolderName cfg folderPath w = some r ∧ Later r.2 w := by
  have hmem : 47 ∈ cstr (cstr folderPath ++ [0]) := by
    rw [cstr_append_zero, cstr_idem]; exact h
  obtain ⟨p, hp⟩ := strchr_isSome_of_mem _ 47 hmem
  have hlt := strchr_lt _ _ _ hp
  unfold getFolderName
  rw [if_neg (by omega)]
  simp only [hp]
  exact getFolderLoop_defined _ _ p 1 w hlt (by omega)

theorem uploadFolderOrFileFtp_defined (cfg : Config) (w : World) (hw : Defined cfg w) :
    ∃ w', uploadFolderOrFileFtp cfg w = some w' := by
  unfold uploadFolderOrFileFtp
  split
  · exact ⟨w, rfl⟩
  · have hl := ftpConnect_later cfg w
    rcases hc : ftpConnect cfg w with ⟨ok, w1⟩
    rw [hc] at hl
    dsimp only at hl ⊢
    split
    · exact ⟨w1, rfl⟩
    · have hrep1 := repliesOK_of_later hl hw.1
      rcases hsd : w1.sdOpen with _ | root
      · exact ⟨w1, rfl⟩
      · obtain ⟨hpath, hplen, hsz, hch⟩ := hw.2 root (by rw [← hl.2, hsd])
        dsimp only
        split
        · obtain ⟨⟨b, w2⟩, hg, hl2⟩ := getFolderName_defined cfg root.entry.path w1 hpath hplen
          rw [hg]
          cases b
          · exact ⟨w2, rfl⟩
          · obtain ⟨r, hr⟩ := ftpStoreFile_defined cfg root.entry w2
              (repliesOK_of_later hl2 hrep1) hsz
            exact ⟨r.2, by simp [hr]⟩
        · have hl2 := createFtpFolder_later root.entry.name w1
          rcases hcf : createFtpFolder root.entry.name w1 with ⟨ok2, w2⟩
          rw [hcf] at hl2
          dsimp only at hl2 ⊢
          split
          · exact ⟨w2, rfl⟩
          · exact uploadChildren_defined cfg root.children w2 (repliesOK_of_later hl2 hrep1) hch

theorem replyOK_none : ReplyOK none := fun _ h => absurd h (by simp)

theorem replyOK_some (bytes : List Nat) (h1 : 3 ≤ bytes.length)
    (h2 : bytes.take 3 = str "227" → parsePasv ((bytes.drop 3).take 255 ++ [0]) ≠ none) :
    ReplyOK (some bytes) := by
  intro b hb
  cases hb
  exact ⟨h1, h2⟩

/-! ## Theorems -/

/-- C1: while an upload is in progress `ftpFileOrFolder` returns false and changes nothing:
the busy flag stays set, the recorded path is kept and the worker gets no notification. -/
theorem ftpFileOrFolder_busy_rejects (cfg : Config) (fileFolder : List Nat) (w : World)
    (hbusy : w.uploadInProgress = true) :
    ∃ w', ftpFileOrFolder cfg fileFolder w = some (false, w') ∧ w' = w ∧
      w'.uploadInProgress = true ∧ w'.sdPathName = w.sdPathName ∧
      w'.notifications = w.notifications := by
  exact ⟨w, by simp [ftpFileOrFolder, hbusy], rfl, hbusy, rfl, rfl⟩

theorem ftpFileOrFolder_busy_rejects_witness :
    ftpFileOrFolder demoConfig (str "/20221004") { World.init with
        uploadInProgress := true, sdPathName := str "/20221003" } =
      some (false, { World.init with uploadInProgress := true, sdPathName := str "/20221003" }) := by
  obtain ⟨w', h, hw, -⟩ := ftpFileOrFolder_busy_rejects demoConfig (str "/20221004")
    { World.init with uploadInProgress := true, sdPathName := str "/20221003" } rfl
  rw [h, hw]

/-- C2 (as amended): for an expected code other than the wildcard "999" and a reply of at least
three bytes that arrives in time, `sendFtpCommand` returns true exactly when the first three
bytes of the reply are string-equal to the expected code, and replacing the bytes after the code
does not change the result. -/
theorem sendFtpCommand_true_iff_code (cmd param respCode reply : List Nat)
    (rest : List (Option (List Nat))) (w : World)
    (hw : w.replies = some reply :: rest) (hlen : 3 ≤ reply.length)
    (hwild : cstr respCode ≠ str "999") :
    ((sendFtpCommand cmd param respCode w).1 = true ↔ cstr (reply.take 3) = cstr respCode) ∧
    ∀ msg : List Nat,
      (sendFtpCommand cmd param respCode
        { w with replies := some (reply.take 3 ++ msg) :: rest }).1 =
      (sendFtpCommand cmd param respCode w).1 := by
  constructor
  · rw [sendFtpCommand_fst cmd param respCode reply rest w hw hlen]
    simp [hwild]
  · intro msg
    have hlen2 : 3 ≤ (reply.take 3 ++ msg).length := by simp; omega
    rw [sendFtpCommand_fst cmd param respCode reply rest w hw hlen,
      sendFtpCommand_fst cmd param respCode (reply.take 3 ++ msg) rest
        { w with replies := some (reply.take 3 ++ msg) :: rest } rfl hlen2]
    have : List.take 3 (List.take 3 reply ++ msg) = List.take 3 reply := by
      rw [List.take_append_of_le_length (by simp [hlen])]
      simp
    rw [this]

theorem sendFtpCommand_true_iff_code_witness :
    ((sendFtpCommand (str "USER ") (str "cam") (str "331")
        { World.init with replies := [some (str "331 Password required")] }).1 = true ↔
      cstr ((str "331 Password required").take 3) = cstr (str "331")) ∧
    ∀ msg : List Nat,
      (sendFtpCommand (str "USER ") (str "cam") (str "331")
        { { World.init with replies := [some (str "331 Password required")] } with
          replies := some ((str "331 Password required").take 3 ++ msg) :: [] }).1 =
      (sendFtpCommand (str "USER ") (str "cam") (str "331")
        { World.init with replies := [some (str "331 Password required")] }).1 :=
  sendFtpCommand_true_iff_code (str "USER ") (str "cam") (str "331")
    (str "331 Password required") [] _ rfl (by decide) (by decide)

/-- C2 as stated fails on a reply shorter than three bytes. After a folder probe answered with
`550`, a reply that consists of the two bytes `22` arrives in time; its bytes are not
string-equal to the expected `220`, yet `sendFtpCommand` returns true, because the third byte of
`respCodeRx` is still the `0` of `550`. -/
theorem sendFtpCommand_short_reply_keeps_old_byte :
    (sendFtpCommand (str "CWD ") (str "20221004") (str "999")
        { World.init with
          replies := [some (str "550 No such directory"), some (str "22")] }).2.replies =
      [some (str "22")] ∧
    cstr (sendFtpCommand (str "CWD ") (str "20221004") (str "999")
        { World.init with
          replies := [some (str "550 No such directory"), some (str "22")] }).2.respCodeRx =
      str "550" ∧
    cstr ((str "22").take 3) ≠ cstr (str "220") ∧
    (sendFtpCommand (str "") (str "") (str "220")
        (sendFtpCommand (str "CWD ") (str "20221004") (str "999")
          { World.init with
            replies := [some (str "550 No such directory"), some (str "22")] }).2).1 = true := by
  refine ⟨?_, ?_, ?_, ?_⟩ <;> decide

/-- C3 (as amended): when the reply to `PASV` is `227`, some text without `(` and without NUL,
and then a tuple `(h1,h2,h3,h4,p1,p2)` of decimal integers, `p1` and `p2` not negative, that
lies within the 255 message bytes read and has `p1 * 256 + p2` below 65536, `openDataPort` asks
the data client to connect to the configured server on port `p1 * 256 + p2`, whatever `h1 .. h4`
are, and returns what that connect returns. -/
theorem openDataPort_connects_to_port (cfg : Config) (w : World) (rest : List (Option (List Nat)))
    (text tail : List Nat) (h1 h2 h3 h4 : Int) (p1 p2 : Nat)
    (hw : w.replies = some (str "227" ++ text ++ pasvTuple h1 h2 h3 h4 p1 p2 ++ tail) :: rest)
    (htext : ∀ c ∈ text, c ≠ 40 ∧ c ≠ 0)
    (hfit : (text ++ pasvTuple h1 h2 h3 h4 p1 p2).length ≤ 255)
    (hport : p1 * 256 + p2 < 65536) :
    ∃ w2, openDataPort cfg w = some (w.dconnectResults.headD false, w2) ∧
      w2.dconnects = w.dconnects ++ [(cfg.ftp_server, p1 * 256 + p2)] ∧
      w2.dclientConnected = w.dconnectResults.headD false := by
  have g1 := str_toString_int_spec h1
  have g2 := str_toString_int_spec h2
  have g3 := str_toString_int_spec h3
  have g4 := str_toString_int_spec h4
  obtain ⟨g5, v5⟩ := str_toString_spec p1
  obtain ⟨g6, v6⟩ := str_toString_spec p2
  set tup := pasvTuple h1 h2 h3 h4 p1 p2 with htup
  have hlen : 3 ≤ (str "227" ++ text ++ tup ++ tail).length := by
    simp [show (str "227").length = 3 from rfl]
  have hsend := sendFtpCommand_eq (str "PASV") (str "") (str "227") _ rest w hw hlen
  have htake : (str "227" ++ text ++ tup ++ tail).take 3 = str "227" := by
    rw [List.append_assoc, List.append_assoc, List.take_append_of_le_length (by decide)]
    rfl
  have hdrop : (str "227" ++ text ++ tup ++ tail).drop 3 = text ++ tup ++ tail := by
    rw [List.append_assoc, List.append_assoc, List.drop_append_of_le_length (by decide)]
    simp [show (str "227").drop 3 = [] from rfl]
  rw [htake] at hsend
  have hmsg : ((str "227" ++ text ++ tup ++ tail).drop 3).take 255 =
      text ++ tup ++ tail.take (255 - (text ++ tup).length) := by
    rw [hdrop, List.take_append_eq_append_take, List.take_of_length_le hfit]
  obtain ⟨Y, hbuf⟩ : ∃ Y, (readReply (str "227" ++ text ++ tup ++ tail) rest
      (printCommand (str "PASV") (str "") w)).rspBuf = text ++ (tup ++ Y) := by
    refine ⟨tail.take (255 - (text ++ tup).length) ++
      0 :: (((printCommand (str "PASV") (str "") w).rspBuf.drop
        (text ++ tup ++ tail.take (255 - (text ++ tup).length)).length).drop 1), ?_⟩
    simp only [readReply, poke_writeBuf]
    rw [hmsg]
    simp only [List.append_assoc]
  have hscan : sscanfPasv (tup ++ cstr Y) = some (2, (p1 : Int), (p2 : Int)) := by
    have := sscanfPasv_tuple6 _ _ _ _ _ _ (cstr Y) g1 g2 g3 g4 g5 g6
      (by rw [v5]; omega) (by rw [v6]; omega)
    rw [v5, v6] at this
    exact this
  have hshift : shiftAdd (p1 : Int) (p2 : Int) = some ((p1 * 256 + p2 : Nat) : Int) := by
    have f1 : fitsInt ((p1 : Int) * 256) = true := by
      have := fitsInt_of_lt (p1 * 256) (by omega)
      push_cast at this
      exact this
    have f2 : fitsInt ((p1 : Int) * 256 + (p2 : Int)) = true := by
      have := fitsInt_of_lt (p1 * 256 + p2) (by omega)
      push_cast at this
      exact this
    have hneg : ¬ ((p1 : Int) < 0) := by omega
    simp [shiftAdd, hneg, f1, f2]
  have hparse : parsePasv (text ++ (tup ++ Y)) = some (some (p1 * 256 + p2)) := by
    have hat : cstrAt (text ++ (tup ++ Y)) 40 = some (tup ++ cstr Y) := by
      have h40 : tup ++ Y = 40 :: ((tup.drop 1) ++ Y) := by
        simp [htup, pasvTuple, tuple6]
      rw [h40, cstrAt_append text _ 40 htext, ← h40,
        cstr_append_of_no_zero _ _ (by
          rw [htup, pasvTuple]
          exact tuple6_ne_zero _ _ _ _ _ _ g1 g2 g3 g4 g5 g6)]
    unfold parsePasv
    rw [hat]
    simp only [hscan, hshift, ne_eq, not_true_eq_false, if_false]
    congr 2
    have hmod : ((p1 * 256 + p2 : Nat) : Int) % 65536 = ((p1 * 256 + p2 : Nat) : Int) :=
      Int.emod_eq_of_lt (by omega) (by omega)
    rw [hmod, Int.toNat_ofNat]
  unfold openDataPort
  rw [hsend]
  simp only [hbuf, hparse, List.headD_eq_head?_getD]
  cases hres : w.dconnectResults.head?.getD false <;> simp [hres]

theorem openDataPort_connects_to_port_witness :
    (openDataPort demoConfig
        { World.init with
          replies := [some (str "227 Entering Passive Mode (10,0,0,1,200,24)")]
          dconnectResults := [true] }).map (fun r => (r.1, r.2.dconnects)) =
      some (true, [(demoConfig.ftp_server, 51224)]) := by
  obtain ⟨w2, h, hd, -⟩ := openDataPort_connects_to_port demoConfig
    { World.init with
      replies := [some (str "227 Entering Passive Mode (10,0,0,1,200,24)")]
      dconnectResults := [true] }
    [] (str " Entering Passive Mode ") [] 10 0 0 1 200 24 (by decide) (by decide) (by decide)
    (by decide)
  rw [h, Option.map_some', hd]
  rfl

/-- C3 as stated fails on replies that do hold a tuple `(h1,h2,h3,h4,p1,p2)`:
with a parenthesis ahead of the tuple the parse starts there and nothing is connected;
with the tuple running past the 255 message bytes read the port comes from the cut-off number
(51202, not 51224); with `p1 * 256 + p2` beyond 65535 the `uint16_t` port is another one
(1, not 65537); with a negative `p1` the shift is undefined; with a NUL byte ahead of the tuple
`strchr` finds no parenthesis. -/
theorem openDataPort_tuple_not_always_port :
    (openDataPort demoConfig
        { World.init with
          replies := [some (str "227 Entering (Passive) Mode (10,0,0,1,200,24)")]
          dconnectResults := [true] }).map (fun r => (r.1, r.2.dconnects)) =
      some (false, []) ∧
    (openDataPort demoConfig
        { World.init with
          replies := [some (str "227" ++ List.replicate 240 32 ++ str "(10,0,0,1,200,24)")]
          dconnectResults := [true] }).map (fun r => (r.1, r.2.dconnects)) =
      some (true, [(demoConfig.ftp_server, 51202)]) ∧
    (openDataPort demoConfig
        { World.init with
          replies := [some (str "227 Entering Passive Mode (10,0,0,1,256,1)")]
          dconnectResults := [true] }).map (fun r => (r.1, r.2.dconnects)) =
      some (true, [(demoConfig.ftp_server, 1)]) ∧
    openDataPort demoConfig
        { World.init with
          replies := [some (str "227 Entering Passive Mode (10,0,0,1,-1,300)")]
          dconnectResults := [true] } = none ∧
    openDataPort demoConfig
        { World.init with
          replies := [some (str "227 Entering" ++ [0] ++ str " Passive Mode (10,0,0,1,200,24)")]
          dconnectResults := [true] } = none := by
  refine ⟨?_, ?_, ?_, ?_, ?_⟩ <;> decide

/-- C4: in the walk over the children of a folder, when the children before child `k` are stored
and `ftpStoreFile` returns false on child `k`, the walk ends in the very state that call left:
whatever children follow, none of them is handed to `ftpStoreFile` and no further command is
sent. The calls recorded are those on the children up to `k`. -/
theorem uploadChildren_stops_at_first_failure (cfg : Config) (pre : List Entry) (fk : Entry)
    (rest : List Entry) (w w1 w2 : World)
    (hpre : storeAll cfg pre w = some w1)
    (hk : ftpStoreFile cfg fk w1 = some (false, w2)) :
    uploadChildren cfg (pre ++ fk :: rest) w = some w2 ∧
    w2.calls = w.calls ++ (pre ++ [fk]).map (fun e => Call.ftpStoreFile (cstr e.name)) := by
  constructor
  · rw [uploadChildren_append cfg pre (fk :: rest) w w1 hpre]
    simp [uploadChildren, hk]
  · rw [ftpStoreFile_calls cfg fk w1 false w2 hk, storeAll_calls cfg pre w w1 hpre]
    simp

theorem uploadChildren_stops_at_first_failure_witness :
    (uploadChildren demoConfig
      [demoFile "1.mjpeg" [[1, 2, 3]], demoFile "2.mjpeg" [[4, 5, 6]], demoFile "3.mjpeg" [[7]],
        demoFile "4.mjpeg" [[8]], demoFile "5.mjpeg" [[9]]] demoFiveWorld).map
      (fun w => (w.calls, w.ctrlOut)) =
    some ([Call.ftpStoreFile (str "1.mjpeg"), Call.ftpStoreFile (str "2.mjpeg")],
      [str "PASV", str "STOR 1.mjpeg", str "PASV", str "STOR 2.mjpeg"]) := by
  have h := uploadChildren_stops_at_first_failure demoConfig [demoFile "1.mjpeg" [[1, 2, 3]]]
    (demoFile "2.mjpeg" [[4, 5, 6]])
    [demoFile "3.mjpeg" [[7]], demoFile "4.mjpeg" [[8]], demoFile "5.mjpeg" [[9]]]
    demoFiveWorld
    ((storeAll demoConfig [demoFile "1.mjpeg" [[1, 2, 3]]] demoFiveWorld).getD demoFiveWorld)
    (((ftpStoreFile demoConfig (demoFile "2.mjpeg" [[4, 5, 6]])
      ((storeAll demoConfig [demoFile "1.mjpeg" [[1, 2, 3]]] demoFiveWorld).getD demoFiveWorld)).map
        Prod.snd).getD demoFiveWorld)
    (by decide) (by decide)
  rw [show [demoFile "1.mjpeg" [[1, 2, 3]], demoFile "2.mjpeg" [[4, 5, 6]], demoFile "3.mjpeg" [[7]],
        demoFile "4.mjpeg" [[8]], demoFile "5.mjpeg" [[9]]] =
      [demoFile "1.mjpeg" [[1, 2, 3]]] ++ demoFile "2.mjpeg" [[4, 5, 6]] ::
        [demoFile "3.mjpeg" [[7]], demoFile "4.mjpeg" [[8]], demoFile "5.mjpeg" [[9]]] from rfl,
    h.1]
  decide

/-- C5: one round of the worker loop ends with the busy flag cleared and both clients stopped,
whatever way `uploadFolderOrFileFtp` returned (path too short, connect failure, open
failure, folder failure, file failure or success). The round does come to its end on every input
that keeps within defined behaviour (`Defined`). -/
theorem FTPtask_ends_idle (cfg : Config) (w : World) :
    (∀ w1, uploadFolderOrFileFtp cfg { w with notifications := 0, doPlayback := false } = some w1 →
      ∃ w', FTPtask cfg w = some w' ∧ w'.uploadInProgress = false ∧
        w'.clientConnected = false ∧ w'.dclientConnected = false) ∧
    (Defined cfg w →
      ∃ w', FTPtask cfg w = some w' ∧ w'.uploadInProgress = false ∧
        w'.clientConnected = false ∧ w'.dclientConnected = false) := by
  have key : ∀ w1, uploadFolderOrFileFtp cfg { w with notifications := 0, doPlayback := false } =
      some w1 → ∃ w', FTPtask cfg w = some w' ∧ w'.uploadInProgress = false ∧
        w'.clientConnected = false ∧ w'.dclientConnected = false := by
    intro w1 h
    unfold FTPtask
    dsimp only
    rw [h]
    exact ⟨_, rfl, rfl, rfl, rfl⟩
  refine ⟨key, fun hw => ?_⟩
  obtain ⟨w1, h1⟩ := uploadFolderOrFileFtp_defined cfg
    { w with notifications := 0, doPlayback := false } hw
  exact key w1 h1

theorem FTPtask_ends_idle_witness :
    (FTPtask demoConfig demoRoundWorld).map
      (fun w => (w.uploadInProgress, w.clientConnected, w.dclientConnected)) =
    some (false, false, false) := by
  have hdef : Defined demoConfig demoRoundWorld := by
    constructor
    · intro r hr
      simp only [demoRoundWorld, List.mem_cons, List.mem_singleton, List.not_mem_nil,
        or_false] at hr
      rcases hr with rfl | rfl | rfl | rfl | rfl | rfl | rfl | rfl | rfl | rfl | rfl | rfl <;>
        exact replyOK_some _ (by decide) (by decide)
    · intro root hroot
      simp only [demoRoundWorld, Option.some.injEq] at hroot
      subst hroot
      refine ⟨by decide, by decide, by unfold EntryOK SizeOK; decide, ?_⟩
      intro e he
      simp only [List.mem_cons, List.mem_singleton, List.not_mem_nil, or_false] at he
      rcases he with rfl | rfl <;> (unfold EntryOK SizeOK; decide)
  obtain ⟨w', h, hb, hc, hd⟩ := (FTPtask_ends_idle demoConfig demoRoundWorld).2 hdef
  rw [h, Option.map_some', hb, hc, hd]

/-- C6 (as amended): for a file of size `S` whose hook delivers the file's bytes unchanged in
non-empty chunks of at most `C` bytes, and a data channel on which no write is partial (each write
takes the whole chunk or nothing), whenever `ftpStoreFile` returns true the bytes written to the
data channel are exactly the file's bytes, `S` in total, and the 32-bit `writeBytes` counter of
the chunk loop ends at `S` (modulo `2 ^ 32`). -/
theorem ftpStoreFile_writes_whole_file (cfg : Config) (fh : Entry) (w w' : World)
    (data : List Nat) (C : Nat)
    (hdata : fh.reads.flatten = data)
    (hchunks : ∀ c ∈ fh.reads, c ≠ [] ∧ c.length ≤ C)
    (hsize : fh.size = data.length)
    (hwhole : ∀ p ∈ List.zip fh.reads w.writeResults, p.2 = 0 ∨ p.1.length ≤ p.2)
    (hres : ftpStoreFile cfg fh w = some (true, w')) :
    w'.dataOut = w.dataOut ++ data ∧
    w'.dataOut.length = w.dataOut.length + fh.size ∧
    ∃ w2 w3, storeLoop fh.size fh.reads 0 0 w2 = some (true, fh.size % 4294967296, w3) ∧
      w2.dataOut = w.dataOut ∧ w3.dataOut = w'.dataOut := by
  rcases ftpStoreFile_cases cfg fh w true w' hres with ⟨-, hb, -⟩ | ⟨-, b1, w1, hod, hrest⟩
  · exact absurd hb (by simp)
  · obtain ⟨hd1, hw1, -, -, -⟩ := openDataPort_frame cfg _ w1 b1 hod
    rcases hrest with ⟨hb, -⟩ | ⟨w2, hst, hrest⟩
    · exact absurd hb (by simp)
    · have hd2 := sendFtpCommand_dataOut (str "STOR ")
        (if fh.isAVI then cfg.changeExtension fh.name else cstr fh.name) (str "150") w1
      have hw2 := sendFtpCommand_writeResults (str "STOR ")
        (if fh.isAVI then cfg.changeExtension fh.name else cstr fh.name) (str "150") w1
      rw [hst] at hd2 hw2
      dsimp only at hd2 hw2 hd1 hw1
      rcases hrest with ⟨hb, -⟩ | ⟨-, wb, w3, hl, rfl⟩
      · exact absurd hb (by simp)
      · obtain ⟨hout, hwb⟩ := storeLoop_whole fh.size fh.reads 0 0 w2 wb w3 hl (by decide)
          (fun c hc => (hchunks c hc).1) (by rw [hw2, hw1]; exact hwhole)
        rw [hdata] at hout hwb
        have hwb' : wb = fh.size % 4294967296 := by rw [hwb, ← hsize]; simp
        have hfin : (sendFtpCommand (str "") (str "") (str "226")
            { w3 with dclientConnected := false }).2.dataOut = w.dataOut ++ data := by
          rw [sendFtpCommand_dataOut]
          dsimp only
          rw [hout, hd2, hd1]
        refine ⟨hfin, by rw [hfin, hsize]; simp, w2, w3, by rw [hl, hwb'], by rw [hd2, hd1], ?_⟩
        rw [hfin, hout, hd2, hd1]

theorem ftpStoreFile_writes_whole_file_witness :
    ftpStoreFile demoConfig (demoFile "1.mjpeg" [[1, 2, 3], [4, 5]]) demoStoreWorld =
      some (true, ((ftpStoreFile demoConfig (demoFile "1.mjpeg" [[1, 2, 3], [4, 5]])
        demoStoreWorld).map Prod.snd).getD World.init) ∧
    (((ftpStoreFile demoConfig (demoFile "1.mjpeg" [[1, 2, 3], [4, 5]])
        demoStoreWorld).map Prod.snd).getD World.init).dataOut =
      demoStoreWorld.dataOut ++ [1, 2, 3, 4, 5] :=
  ⟨by decide,
    (ftpStoreFile_writes_whole_file demoConfig (demoFile "1.mjpeg" [[1, 2, 3], [4, 5]])
      demoStoreWorld
      (((ftpStoreFile demoConfig (demoFile "1.mjpeg" [[1, 2, 3], [4, 5]])
        demoStoreWorld).map Prod.snd).getD World.init)
      [1, 2, 3, 4, 5] 3 (by decide) (by decide) (by decide) (by decide) (by decide)).1⟩

/-- C6 as stated fails: a file of 10 bytes delivered as one chunk, of which the data channel takes
4. The write is not empty, so `ftpStoreFile` returns true, with 4 bytes written in all and the
`writeBytes` counter at 4. -/
theorem ftpStoreFile_short_write_counts_less :
    (demoFile "1.mjpeg" [[1, 2, 3, 4, 5, 6, 7, 8, 9, 10]]).size = 10 ∧
    strstrFound (cstr (demoFile "1.mjpeg" [[1, 2, 3, 4, 5, 6, 7, 8, 9, 10]]).name)
      (cstr demoConfig.FILE_EXT) = true ∧
    (ftpStoreFile demoConfig (demoFile "1.mjpeg" [[1, 2, 3, 4, 5, 6, 7, 8, 9, 10]])
      { World.init with
        replies := [some (str "227 Entering Passive Mode (10,0,0,1,200,24)"), some (str "150 Ok"),
          some (str "226 Done")]
        dconnectResults := [true]
        writeResults := [4] }).map (fun r => (r.1, r.2.dataOut)) =
      some (true, [1, 2, 3, 4]) ∧
    (storeLoop 10 [[1, 2, 3, 4, 5, 6, 7, 8, 9, 10]] 0 0
      { World.init with writeResults := [4] }).map (fun r => (r.1, r.2.1)) = some (true, 4) := by
  refine ⟨?_, ?_, ?_, ?_⟩ <;> decide

/-- C7: on a path `/s1/s2/.../sN/name` `getFolderName` does exactly what `ensurePath` does on the
segments `s1 .. sN`: `createFtpFolder` on each one in this order, at most once, never on `name`;
false as soon as one call fails, with no later segment touched, and true when none fails. The
path fits the `FILE_NAME_LEN` buffer it is copied into. The
calls recorded are those on the first `k` segments, and `k = N` when the result is true. -/
theorem getFolderName_ensures_segments (cfg : Config) (segs : List (List Nat)) (name : List Nat)
    (w : World) (hsegs : ∀ seg ∈ segs, IsSegment seg) (hname : IsSegment name)
    (hfit : (pathOf segs name).length < cfg.FILE_NAME_LEN) :
    getFolderName cfg (pathOf segs name) w = some (ensurePath segs w) ∧
    ∃ k, k ≤ segs.length ∧
      (ensurePath segs w).2.calls = w.calls ++ (segs.take k).map Call.createFtpFolder ∧
      ((ensurePath segs w).1 = true → k = segs.length) := by
  constructor
  · have hnz : ∀ c ∈ pathOf segs name, c ≠ 0 := by
      intro c hc
      simp only [pathOf, List.mem_cons] at hc
      rcases hc with h | h
      · omega
      · exact joinPath_ne_zero segs name hsegs hname c h
    have hloop := getFolderLoop_joinPath segs (cstr (pathOf segs name) ++ [0]).length [] 47 name []
      w hsegs hname (by
        rw [cstr_of_no_zero _ hnz]
        have := length_le_joinPath segs name
        simp [pathOf]; omega)
    unfold getFolderName
    rw [if_neg (by unfold strlen; rw [cstr_of_no_zero _ hnz]; omega)]
    rw [cstr_of_no_zero _ hnz] at hloop ⊢
    simpa [pathOf, strchr] using hloop
  · obtain ⟨k, hk, hcalls, htrue⟩ := ensurePath_calls segs w
    refine ⟨k, hk, ?_, htrue⟩
    rw [hcalls]
    congr 1
    apply List.map_congr_left
    intro s hs
    have hs' : s ∈ segs := List.mem_of_mem_take hs
    rw [cstr_of_no_zero s (fun c hc => (hsegs s hs' c hc).2)]

theorem getFolderName_ensures_segments_witness :
    getFolderName demoConfig (str "/20221004/clips/a.mjpeg") World.init =
      some (ensurePath [str "20221004", str "clips"] World.init) :=
  (getFolderName_ensures_segments demoConfig [str "20221004", str "clips"] (str "a.mjpeg")
    World.init
    (by
      intro seg hs
      simp only [List.mem_cons, List.mem_singleton, List.not_mem_nil, or_false] at hs
      rcases hs with rfl | rfl <;> (unfold IsSegment; decide))
    (by unfold IsSegment; decide) (by decide)).1

/-- C8: a `227` reply without any opening parenthesis does not make `openDataPort` return false:
`strchr` yields a null pointer that is passed to `sscanf`, so the call has no defined result.
A tuple with fewer than six numbers does give false, with no data connection attempted. -/
theorem openDataPort_reply_without_parenthesis :
    openDataPort
        demoConfig
        { World.init with
          replies := [some (str "227 Entering Passive Mode")]
          dconnectResults := [true] } = none ∧
    (openDataPort
        demoConfig
        { World.init with
          replies := [some (str "227 Entering Passive Mode (10,0,0,1,200)")]
          dconnectResults := [true] }).map (fun r => (r.1, r.2.dconnects, r.2.dclientConnected)) =
      some (false, [], false) := by
  constructor <;> decide

/-- C9 (as amended): a child whose name fails the extension check inside `ftpStoreFile` (a nested
folder, or a file of another type) causes no traffic on either channel, but the `false` it
returns ends the walk like any other failure: no later child is handed to `ftpStoreFile`. -/
theorem uploadChildren_stops_at_unmatched_name (cfg : Config) (pre : List Entry) (fh : Entry)
    (rest : List Entry) (w w1 : World)
    (hpre : storeAll cfg pre w = some w1)
    (hext : strstrFound (cstr fh.name) (cstr cfg.FILE_EXT) = false) :
    uploadChildren cfg (pre ++ fh :: rest) w =
      some { w1 with calls := w1.calls ++ [Call.ftpStoreFile (cstr fh.name)] } := by
  rw [uploadChildren_append cfg pre (fh :: rest) w w1 hpre]
  simp [uploadChildren, ftpStoreFile, hext]

theorem uploadChildren_stops_at_unmatched_name_witness :
    (uploadChildren demoConfig
      [demoFile "1.mjpeg" [[1, 2, 3]], demoFile "notes.txt" [[4, 5, 6]], demoFile "3.mjpeg" [[7]]]
      demoFiveWorld).map (fun w => (w.calls, w.ctrlOut)) =
    some ([Call.ftpStoreFile (str "1.mjpeg"), Call.ftpStoreFile (str "notes.txt")],
      [str "PASV", str "STOR 1.mjpeg"]) := by
  rw [show [demoFile "1.mjpeg" [[1, 2, 3]], demoFile "notes.txt" [[4, 5, 6]],
        demoFile "3.mjpeg" [[7]]] =
      [demoFile "1.mjpeg" [[1, 2, 3]]] ++ demoFile "notes.txt" [[4, 5, 6]] ::
        [demoFile "3.mjpeg" [[7]]] from rfl,
    uploadChildren_stops_at_unmatched_name demoConfig [demoFile "1.mjpeg" [[1, 2, 3]]]
      (demoFile "notes.txt" [[4, 5, 6]]) [demoFile "3.mjpeg" [[7]]] demoFiveWorld
      ((storeAll demoConfig [demoFile "1.mjpeg" [[1, 2, 3]]] demoFiveWorld).getD demoFiveWorld)
      (by decide) (by decide)]
  decide

/-- C9 as stated fails: with a nested folder `clips` (or a file `notes.txt`) ahead of a
matching file, the walk ends at the first child; `ftpStoreFile` is never invoked on the
matching file behind it and nothing is sent. -/
theorem uploadChildren_unmatched_child_not_skipped :
    (uploadChildren demoConfig
      [{ name := str "clips", path := str "/20221004/clips", isDirectory := true, size := 0,
         isAVI := false, reads := [] },
       demoFile "2.mjpeg" [[4, 5, 6]]] demoFiveWorld).map (fun w => (w.calls, w.ctrlOut)) =
      some ([Call.ftpStoreFile (str "clips")], []) ∧
    (uploadChildren demoConfig
      [demoFile "notes.txt" [[1, 2, 3]], demoFile "2.mjpeg" [[4, 5, 6]]] demoFiveWorld).map
        (fun w => (w.calls, w.ctrlOut)) =
      some ([Call.ftpStoreFile (str "notes.txt")], []) := by
  constructor <;> decide

/-- C10: `ftpStoreFile` does not look at what `openDataPort` returns. With the `PASV` request
refused (or the data connection not established) the `STOR` command is sent all the same; for an
empty file the call then even returns true. -/
theorem ftpStoreFile_sends_STOR_after_failed_openDataPort :
    (ftpStoreFile demoConfig (demoFile "1.mjpeg" [[1, 2, 3]])
      { World.init with
        replies := [some (str "500 PASV not understood"), some (str "150 Ok")] }).map
        (fun r => (r.1, r.2.ctrlOut, r.2.dconnects)) =
      some (false, [str "PASV", str "STOR 1.mjpeg"], []) ∧
    (ftpStoreFile demoConfig (demoFile "1.mjpeg" [[1, 2, 3]])
      { World.init with
        replies := [some (str "227 Entering Passive Mode (10,0,0,1,200,24)"), some (str "150 Ok")]
        dconnectResults := [false] }).map
        (fun r => (r.1, r.2.ctrlOut, r.2.dclientConnected)) =
      some (false, [str "PASV", str "STOR 1.mjpeg"], false) ∧
    (ftpStoreFile demoConfig (demoFile "0.mjpeg" [])
      { World.init with
        replies := [some (str "500 PASV not understood"), some (str "150 Ok"),
          some (str "226 Done")] }).map
        (fun r => (r.1, r.2.ctrlOut)) =
      some (true, [str "PASV", str "STOR 0.mjpeg"]) := by
  refine ⟨?_, ?_, ?_⟩ <;> decide

end Ftp
